import Mathlib

/-!
Verification development for the Mode S / ADS-B log-analysis repository
(two near-duplicate versions: `ver1/prog1.py` and `ver2/{main,decoder,config}.py`).

The embedding is shallow: Python dictionaries become functions `String → _`,
Python lists become Lean lists (append at the end models `list.append`),
Python sets become duplicate-free lists built with an idempotent insert,
timestamps and numeric field values are rationals, and every call into the
external `pyModeS` decoding library is a field of a `Decoder` oracle record
returning `Option` (a `none` models both a `None` return and a caught
exception, matching the contract that decode failure is always "no data").
-/

namespace Nav

/-! ### Small utilities shared by both repository versions -/

/-- Pointwise update of a string-keyed map (one Python dictionary write). -/
def upd {α : Type} (f : String → α) (k : String) (v : α) : String → α :=
  fun x => if x = k then v else f x


/-- Python `set.add` on a duplicate-free list model of a set. -/
def setInsertStr (x : String) (l : List String) : List String :=
  if x ∈ l then l else l ++ [x]

/-- Python `set.union` on the list model of a set. -/
def unionStr (a b : List String) : List String :=
  b.foldl (fun acc x => setInsertStr x acc) a

/-- Explicit `Option` fallback, `match o with some x => some x | none => b`. -/
def optOr {α : Type} (o b : Option α) : Option α :=
  match o with
  | some x => some x
  | none => b


/-! ### Line Framer (`parse_ads_b_line`, ver2/decoder.py lines 13-48)

The input line is already split on whitespace (`line.strip().split()`), so the
framer is defined on the token list.  The `numpy.float64` string-to-number
conversion of token 0 is external numeric parsing and is passed in as the
`pf` parameter. -/

/-- Membership of a character in the literal `"0123456789ABCDEF"` used by the
hex check of the source. -/
def isHexDigitChar (c : Char) : Bool :=
  c ∈ "0123456789ABCDEF".data

/-- Value of one uppercase hex digit, as computed by Python `int(_, 16)`. -/
def hexVal (c : Char) : Nat :=
  if c.isDigit then c.toNat - '0'.toNat else c.toNat - 'A'.toNat + 10

/-- Python `[int(s[i:i+2], 16) for i in range(0, len(s), 2)]`: bytes are read
two hex digits at a time, a trailing lone digit is its own value. -/
def hexBytes : List Char → List Nat
  | [] => []
  | [a] => [hexVal a]
  | a :: b :: r => (16 * hexVal a + hexVal b) :: hexBytes r

/-- `MAX_MESSAGE_LENGTH` from config.py / prog1.py. -/
def MAX_MESSAGE_LENGTH : Nat := 32

/-- Python `str.upper()` on the character-list view of a string. -/
def strUpper (s : String) : String :=
  String.mk (s.data.map Char.toUpper)

/-- Python `str.strip()` on a character list. -/
def trimChars (l : List Char) : List Char :=
  ((l.dropWhile Char.isWhitespace).reverse.dropWhile Char.isWhitespace).reverse

/-- Python `' '.join(parts)` as a character list. -/
def joinSpaced : List String → List Char
  | [] => []
  | [a] => a.data
  | a :: b :: r => a.data ++ ' ' :: joinSpaced (b :: r)

/-- One framed record: timestamp, payload bytes (truncated to 32), and the
concatenated uppercase hex string used by all decoding calls. -/
structure Parsed where
  timestamp : ℚ
  payload : List Nat
  msgStr : String
  deriving Repr, DecidableEq

/-- `parse_ads_b_line` on the whitespace-split token list.  `pf` is the
external `np.float64` string parse (`none` models `ValueError`). -/
def parse_ads_b_line (pf : String → Option ℚ) (parts : List String) :
    Option Parsed :=
  if parts.length < 2 then none
  else
    match pf (parts.headD "") with
    | none => none
    | some ts =>
      let hexParts :=
        if 3 ≤ parts.length ∧
            (strUpper (parts.getD 1 "") = "DF" ∨ strUpper (parts.getD 1 "") = "UF")
        then parts.drop 2 else parts.drop 1
      let spaced := trimChars ((joinSpaced hexParts).map Char.toUpper)
      let msgChars := spaced.filter (fun c => c ≠ ' ')
      if msgChars = [] ∨ ¬ (msgChars.all isHexDigitChar) then none
      else some ⟨ts, (hexBytes msgChars).take MAX_MESSAGE_LENGTH, String.mk msgChars⟩

/-! ### The external Field Decoder oracle (pyModeS)

Each field models one `pms.*` call used by the repository; `none` stands for
a `None` return or a raised-and-caught exception ("no data", section 6 of the
spec).  `oeFlag false` is the even slot 0, `true` the odd slot 1. -/

structure Decoder where
  icao : String → Option String
  df : String → Option Nat
  typecode : String → Option Nat
  adsbAltitude : String → Option ℚ
  altcode : String → Option ℚ
  idcode : String → Option String
  velocity : String → Option (Option ℚ × Option ℚ × Option ℚ × Option String)
  selectedAltitude : String → Option (Option ℚ × List Char)
  altitudeDiff : String → Option ℚ
  baroPressureSetting : String → Option ℚ
  callsign : String → Option String
  oeFlag : String → Option Bool
  position : String → String → ℚ → ℚ → Option (ℚ × ℚ)

/-! ### Field helper functions (ver2/decoder.py) -/

/-- `MODE_MAP.get(m, m)` from config.py: fixed one-character autopilot mode
mapping, unknown characters pass through unchanged. -/
def MODE_MAP (c : Char) : String :=
  if c = 'U' then "AP"
  else if c = '/' then "ALT"
  else if c = 'M' then "VNAV"
  else if c = 'F' then "LNAV"
  else if c = 'P' then "APP"
  else if c = 'T' then "TCAS"
  else if c = 'C' then "HDG"
  else String.mk [c]

/-- The set comprehension over the raw mode characters in
`get_selected_altitude`. -/
def processModes (raw : List Char) : List String :=
  raw.foldl (fun acc c => setInsertStr (MODE_MAP c) acc) []

/-- `get_altitude_any_df` (decoder.py lines 51-63). -/
def get_altitude_any_df (D : Decoder) (m : String) (df : Nat) : Option ℚ :=
  if df = 17 ∨ df = 18 then
    match D.typecode m with
    | none => none
    | some tc => if 9 ≤ tc ∧ tc ≤ 18 then D.adsbAltitude m else none
  else if df = 0 ∨ df = 4 ∨ df = 16 ∨ df = 20 then D.altcode m
  else none

/-- `get_squawk` (decoder.py lines 66-73): no numeric range check, only the
downlink-format gate. -/
def get_squawk (D : Decoder) (m : String) (df : Nat) : Option String :=
  if df = 5 ∨ df = 21 then D.idcode m else none

/-- `get_velocity` (decoder.py lines 76-89). -/
def get_velocity (D : Decoder) (m : String) : Option ℚ :=
  match D.df m with
  | none => none
  | some d =>
    if d = 17 ∨ d = 18 then
      match D.typecode m with
      | none => none
      | some tc =>
        if tc = 19 then
          match D.velocity m with
          | none => none
          | some v => v.1
        else none
    else none

/-- `get_course` (decoder.py lines 92-104): the heading component of the
velocity tuple (unpacking a `None` tuple raises and is caught). -/
def get_course (D : Decoder) (m : String) : Option ℚ :=
  match D.df m with
  | none => none
  | some d =>
    if d = 17 ∨ d = 18 then
      match D.typecode m with
      | none => none
      | some tc =>
        if tc = 19 then
          match D.velocity m with
          | none => none
          | some v => v.2.1
        else none
    else none

/-- `get_selected_altitude` (decoder.py lines 107-124): selected altitude with
plausibility range -2000..50000 plus the translated autopilot mode set. -/
def get_selected_altitude (D : Decoder) (m : String) :
    Option (ℚ × List String) :=
  match D.df m with
  | none => none
  | some d =>
    if d = 17 ∨ d = 18 then
      match D.typecode m with
      | none => none
      | some tc =>
        if tc = 29 then
          match D.selectedAltitude m with
          | none => none
          | some (oa, raw) =>
            match oa with
            | some v =>
              if -2000 ≤ v ∧ v ≤ 50000 then some (v, processModes raw)
              else none
            | none => none
        else none
    else none

/-- `get_altitude_difference` (decoder.py lines 127-143): range -2500..2500. -/
def get_altitude_difference (D : Decoder) (m : String) : Option ℚ :=
  match D.df m with
  | none => none
  | some d =>
    if d = 17 ∨ d = 18 then
      match D.typecode m with
      | none => none
      | some tc =>
        if tc = 19 then
          match D.altitudeDiff m with
          | none => none
          | some v => if -2500 ≤ v ∧ v ≤ 2500 then some v else none
        else none
    else none

/-- `get_baro_correction` (decoder.py lines 146-166): range 800..1100. -/
def get_baro_correction (D : Decoder) (m : String) : Option ℚ :=
  match D.df m with
  | none => none
  | some d =>
    if d = 17 ∨ d = 18 then
      match D.typecode m with
      | none => none
      | some tc =>
        if tc = 29 then
          match D.baroPressureSetting m with
          | none => none
          | some v => if 800 ≤ v ∧ v ≤ 1100 then some v else none
        else none
    else none

/-- The sanitization in `get_callsign`: keep only alphanumeric characters. -/
def sanitizeCallsign (s : String) : String :=
  String.mk (s.data.filter Char.isAlphanum)

/-- `get_callsign` (decoder.py lines 169-183): the raw callsign must be
non-empty, the sanitized result may still be empty. -/
def get_callsign (D : Decoder) (m : String) : Option String :=
  match D.df m with
  | none => none
  | some d =>
    if d = 17 ∨ d = 18 then
      match D.typecode m with
      | none => none
      | some tc =>
        if 1 ≤ tc ∧ tc ≤ 4 then
          match D.callsign m with
          | none => none
          | some c => if c = "" then none else some (sanitizeCallsign c)
        else none
    else none

/-- `get_format_label` (decoder.py lines 186-203). -/
def get_format_label (m : String) (df : Nat) : String :=
  "DF" ++ toString df ++ "(" ++
    (if df = 0 ∨ df = 4 ∨ df = 5 ∨ df = 11 then "S"
     else if df = 16 ∨ df = 17 ∨ df = 18 ∨ df = 19 ∨ df = 20 ∨ df = 21 ∨ df = 24
     then "L"
     else if m.length * 4 = 56 then "S"
     else if m.length * 4 = 112 then "L"
     else "?") ++ ")"

/-! ### Aircraft State Aggregator (ver2/main.py lines 28-179)

One field per Python dictionary of the ingestion loop.  The heterogeneous
`icao_callsigns` dictionary (callsign at key `aa`, squawk at key `aa + "_sq"`,
mode set at key `aa + "_modes"`) is split into three maps: the synthetic
suffix keys are disjoint from the 6-hex-digit ICAO keys, so the three key
classes never collide. -/

structure AggState where
  times : String → Option (ℚ × ℚ)
  altitude : String → List (ℚ × ℚ)
  gnssAltitude : String → List (ℚ × ℚ)
  speed : String → List (ℚ × ℚ)
  callsigns : String → Option String
  squawks : String → Option String
  modes : String → Option (List String)
  selectedAltitude : String → List (ℚ × ℚ)
  altitudeDifference : String → List (ℚ × ℚ)
  baroCorrection : String → List (ℚ × ℚ)
  hasSelectedAlt : String → Bool
  icaoList : List String
  positions : String → List (ℚ × ℚ × ℚ)
  courses : String → List (ℚ × ℚ)
  cpr : String → Option (Option (String × ℚ) × Option (String × ℚ))
  dfs : String → List String
  tsAirbornePos : String → List ℚ
  tsSurfacePos : String → List ℚ
  tsIdent : String → List ℚ
  tsSpeed : String → List ℚ
  tsStatus : String → List ℚ
  tsTargetState : String → List ℚ
  tsOpStatus : String → List ℚ
  tsDf11 : String → List ℚ
  baroBuffer : String → Option (ℚ × ℚ)

/-- The empty dictionaries initialized at the top of the per-file loop. -/
def initState : AggState where
  times := fun _ => none
  altitude := fun _ => []
  gnssAltitude := fun _ => []
  speed := fun _ => []
  callsigns := fun _ => none
  squawks := fun _ => none
  modes := fun _ => none
  selectedAltitude := fun _ => []
  altitudeDifference := fun _ => []
  baroCorrection := fun _ => []
  hasSelectedAlt := fun _ => false
  icaoList := []
  positions := fun _ => []
  courses := fun _ => []
  cpr := fun _ => none
  dfs := fun _ => []
  tsAirbornePos := fun _ => []
  tsSurfacePos := fun _ => []
  tsIdent := fun _ => []
  tsSpeed := fun _ => []
  tsStatus := fun _ => []
  tsTargetState := fun _ => []
  tsOpStatus := fun _ => []
  tsDf11 := fun _ => []
  baroBuffer := fun _ => none

/-- main.py lines 75-89: register the aircraft, add the format label, update
the first/last watermark, collect the DF11 timestamp. -/
def phaseCommon (aa : String) (df : Nat) (ts : ℚ) (m : String) (s : AggState) :
    AggState :=
  if df = 11 then
    { s with
      icaoList := setInsertStr aa s.icaoList
      dfs := upd s.dfs aa (setInsertStr (get_format_label m df) (s.dfs aa))
      times := upd s.times aa
        (match s.times aa with
         | none => some (ts, ts)
         | some p => some (p.1, ts))
      tsDf11 := upd s.tsDf11 aa (s.tsDf11 aa ++ [ts]) }
  else
    { s with
      icaoList := setInsertStr aa s.icaoList
      dfs := upd s.dfs aa (setInsertStr (get_format_label m df) (s.dfs aa))
      times := upd s.times aa
        (match s.times aa with
         | none => some (ts, ts)
         | some p => some (p.1, ts)) }

/-- main.py lines 92-96: capability-aware altitude extraction with the
plausibility range check -2000..60000 and baro-buffer refresh. -/
def altUpd (D : Decoder) (aa : String) (df : Nat) (ts : ℚ) (m : String)
    (s : AggState) : AggState :=
  match get_altitude_any_df D m df with
  | some a =>
    if -2000 ≤ a ∧ a ≤ 60000 then
      { s with
        altitude := upd s.altitude aa (s.altitude aa ++ [(ts, a)])
        baroBuffer := upd s.baroBuffer aa (some (ts, a)) }
    else s
  | none => s

/-- main.py lines 99-101: squawk storage under the synthetic `_sq` key,
guarded only by string truthiness. -/
def sqUpd (D : Decoder) (aa : String) (df : Nat) (s : AggState) (m : String) :
    AggState :=
  match get_squawk D m df with
  | some q => if q = "" then s else { s with squawks := upd s.squawks aa (some q) }
  | none => s

/-- main.py lines 107-121: the seven per-category timestamp collectors. -/
def phaseTsCollect (aa : String) (ts : ℚ) (tc : Nat) (s : AggState) : AggState :=
  { s with
    tsAirbornePos :=
      if (9 ≤ tc ∧ tc ≤ 18) ∨ (20 ≤ tc ∧ tc ≤ 22) then
        upd s.tsAirbornePos aa (s.tsAirbornePos aa ++ [ts])
      else s.tsAirbornePos
    tsSurfacePos :=
      if 5 ≤ tc ∧ tc ≤ 8 then upd s.tsSurfacePos aa (s.tsSurfacePos aa ++ [ts])
      else s.tsSurfacePos
    tsIdent :=
      if 1 ≤ tc ∧ tc ≤ 4 then upd s.tsIdent aa (s.tsIdent aa ++ [ts])
      else s.tsIdent
    tsSpeed :=
      if tc = 19 then upd s.tsSpeed aa (s.tsSpeed aa ++ [ts]) else s.tsSpeed
    tsStatus :=
      if tc = 28 then upd s.tsStatus aa (s.tsStatus aa ++ [ts]) else s.tsStatus
    tsTargetState :=
      if tc = 29 then upd s.tsTargetState aa (s.tsTargetState aa ++ [ts])
      else s.tsTargetState
    tsOpStatus :=
      if tc = 31 then upd s.tsOpStatus aa (s.tsOpStatus aa ++ [ts])
      else s.tsOpStatus }

/-- Writing the newly arrived frame into its parity slot
(`cpr_messages[aa][oe_flag] = (message_str, msg.timestamp)`). -/
def storeSlot (oe : Bool) (v : String × ℚ)
    (p : Option (String × ℚ) × Option (String × ℚ)) :
    Option (String × ℚ) × Option (String × ℚ) :=
  if oe then (p.1, some v) else (some v, p.2)

/-- main.py lines 129-136: once both slots are populated and the gap is below
10 seconds, attempt resolution (counted in the second component), append on
success, and clear both slots after any attempt. -/
def cprAfterStore (D : Decoder) (aa : String) (ts : ℚ)
    (pair : Option (String × ℚ) × Option (String × ℚ)) (s : AggState) :
    AggState × Nat :=
  match pair with
  | (some (m0, t0), some (m1, t1)) =>
    if |t0 - t1| < 10 then
      (match D.position m0 m1 t0 t1 with
       | some q =>
         { s with
           positions := upd s.positions aa (s.positions aa ++ [(ts, q.1, q.2)])
           cpr := upd s.cpr aa (some (none, none)) }
       | none => { s with cpr := upd s.cpr aa (some (none, none)) }, 1)
    else (s, 0)
  | _ => (s, 0)

/-- main.py lines 124-136: the CPR pairing block.  `setdefault` materializes
the two-slot entry even when `oe_flag` raises; the consecutive writes
`setdefault` / slot store collapse into a single map write of the stored
pair. -/
def cprPhase (D : Decoder) (aa : String) (ts : ℚ) (m : String) (s : AggState) :
    AggState × Nat :=
  match D.oeFlag m with
  | none => ({ s with cpr := upd s.cpr aa (some ((s.cpr aa).getD (none, none))) }, 0)
  | some oe =>
    cprAfterStore D aa ts (storeSlot oe (m, ts) ((s.cpr aa).getD (none, none)))
      { s with
        cpr := upd s.cpr aa (some (storeSlot oe (m, ts) ((s.cpr aa).getD (none, none)))) }

/-- main.py lines 140-142: ground-speed sample. -/
def speedUpd (D : Decoder) (aa : String) (ts : ℚ) (m : String) (s : AggState) :
    AggState :=
  match get_velocity D m with
  | some gs => { s with speed := upd s.speed aa (s.speed aa ++ [(ts, gs)]) }
  | none => s

/-- main.py lines 143-145: course sample. -/
def courseUpd (D : Decoder) (aa : String) (ts : ℚ) (m : String) (s : AggState) :
    AggState :=
  match get_course D m with
  | some c => { s with courses := upd s.courses aa (s.courses aa ++ [(ts, c)]) }
  | none => s

/-- main.py lines 147-156: altitude-difference sample plus the baro/GNSS
fusion inside the 5-second window. -/
def diffFusion (D : Decoder) (aa : String) (ts : ℚ) (m : String) (s : AggState) :
    AggState :=
  match get_altitude_difference D m with
  | some d =>
    match s.baroBuffer aa with
    | some (lt, lb) =>
      if |ts - lt| < 5 then
        { s with
          altitudeDifference :=
            upd s.altitudeDifference aa (s.altitudeDifference aa ++ [(ts, d)])
          gnssAltitude :=
            upd s.gnssAltitude aa (s.gnssAltitude aa ++ [(ts, lb + d)]) }
      else
        { s with
          altitudeDifference :=
            upd s.altitudeDifference aa (s.altitudeDifference aa ++ [(ts, d)]) }
    | none =>
      { s with
        altitudeDifference :=
          upd s.altitudeDifference aa (s.altitudeDifference aa ++ [(ts, d)]) }
  | none => s

/-- main.py lines 139-156: the velocity-squitter branch. -/
def velPhase (D : Decoder) (aa : String) (ts : ℚ) (m : String) (s : AggState) :
    AggState :=
  diffFusion D aa ts m (courseUpd D aa ts m (speedUpd D aa ts m s))

/-- main.py lines 159-161: callsign storage, latest non-empty wins. -/
def csPhase (D : Decoder) (aa : String) (m : String) (s : AggState) : AggState :=
  match get_callsign D m with
  | some c =>
    if c = "" then s else { s with callsigns := upd s.callsigns aa (some c) }
  | none => s

/-- main.py lines 165-172: selected altitude, presence flag, mode-set union. -/
def selUpd (D : Decoder) (aa : String) (ts : ℚ) (m : String) (s : AggState) :
    AggState :=
  match get_selected_altitude D m with
  | some (v, md) =>
    { s with
      selectedAltitude :=
        upd s.selectedAltitude aa (s.selectedAltitude aa ++ [(ts, v)])
      hasSelectedAlt := upd s.hasSelectedAlt aa true
      modes := upd s.modes aa (some (unionStr ((s.modes aa).getD []) md)) }
  | none => s

/-- main.py lines 174-176: baro-pressure-setting sample. -/
def baroCorrUpd (D : Decoder) (aa : String) (ts : ℚ) (m : String) (s : AggState) :
    AggState :=
  match get_baro_correction D m with
  | some b =>
    { s with
      baroCorrection := upd s.baroCorrection aa (s.baroCorrection aa ++ [(ts, b)]) }
  | none => s

/-- main.py lines 164-176: the target-state branch. -/
def selPhase (D : Decoder) (aa : String) (ts : ℚ) (m : String) (s : AggState) :
    AggState :=
  baroCorrUpd D aa ts m (selUpd D aa ts m s)

/-- main.py lines 75-179: per-message processing after the ICAO address and
downlink format have been obtained.  The second component counts the calls to
the pairwise position-resolution function within this message.  A `none` from
`typecode` or `oeFlag` models the exception path: earlier dictionary writes
survive, the rest of the message body is abandoned. -/
def processMsg (D : Decoder) (aa : String) (df : Nat) (ts : ℚ) (m : String)
    (s : AggState) : AggState × Nat :=
  let s2 := sqUpd D aa df (altUpd D aa df ts m (phaseCommon aa df ts m s)) m
  if df = 17 ∨ df = 18 then
    match D.typecode m with
    | none => (s2, 0)
    | some tc =>
      let s3 := phaseTsCollect aa ts tc s2
      if 9 ≤ tc ∧ tc ≤ 18 then cprPhase D aa ts m s3
      else if tc = 19 then (velPhase D aa ts m s3, 0)
      else if 1 ≤ tc ∧ tc ≤ 4 then (csPhase D aa m s3, 0)
      else if tc = 29 then (selPhase D aa ts m s3, 0)
      else (s3, 0)
  else (s2, 0)

/-- The optional aircraft filter from the CLI:
`if target_icao and aa != target_icao` (an empty target string is falsy). -/
def targetSkip (target : Option String) (aa : String) : Bool :=
  match target with
  | none => false
  | some t => if t = "" then false else if aa = t then false else true

/-- One iteration of the ingestion loop over one whitespace-split line. -/
def step (D : Decoder) (pf : String → Option ℚ) (target : Option String)
    (sn : AggState × Nat) (parts : List String) : AggState × Nat :=
  match parse_ads_b_line pf parts with
  | none => sn
  | some p =>
    match D.icao p.msgStr with
    | none => sn
    | some aa =>
      match D.df p.msgStr with
      | none => sn
      | some df =>
        if targetSkip target aa then sn
        else
          let r := processMsg D aa df p.timestamp p.msgStr sn.1
          (r.1, sn.2 + r.2)

/-- The whole ingestion loop over a log file given as split lines, starting
from the freshly initialized dictionaries. -/
def ingest (D : Decoder) (pf : String → Option ℚ) (target : Option String)
    (liness : List (List String)) : AggState × Nat :=
  liness.foldl (step D pf target) (initState, 0)

/-! ### Capability Filter and report counts (ver2/main.py lines 181-200) -/

/-- Substring test on character lists: does the list start with the needle. -/
def leadsWith : List Char → List Char → Bool
  | [], _ => true
  | _ :: _, [] => false
  | a :: as, b :: bs => a = b && leadsWith as bs

/-- Python `needle in hay` substring containment. -/
def hasSubstr (n : List Char) : List Char → Bool
  | [] => leadsWith n []
  | c :: cs => leadsWith n (c :: cs) || hasSubstr n cs

/-- `"DF17" in label or "DF18" in label` from the filter loop. -/
def hasAdsbLabel (l : String) : Bool :=
  hasSubstr "DF17".data l.data || hasSubstr "DF18".data l.data

/-- The retained aircraft list (the per-aircraft loop building
`filtered_icao_list`). -/
def capabilityRetained (s : AggState) : List String :=
  s.icaoList.filter (fun aa => (s.dfs aa).any hasAdsbLabel)

/-- `filtered_count = total_icao_count - len(adsb_icao_list)`. -/
def filteredCount (s : AggState) : Nat :=
  s.icaoList.length - (capabilityRetained s).length

/-! ### Timing Analyzer (ver1/prog1.py lines 643-669)

`np.array(sorted(ts))`, `np.diff(ts) * 1000`, drop the negative intervals,
then split on the band `[center - dev, center + dev]`. -/

/-- Insertion into a sorted rational list (model of Python `sorted`). -/
def insertSorted (x : ℚ) : List ℚ → List ℚ
  | [] => [x]
  | y :: ys => if x ≤ y then x :: y :: ys else y :: insertSorted x ys

/-- Python `sorted` on rationals. -/
def sortQ : List ℚ → List ℚ
  | [] => []
  | x :: xs => insertSorted x (sortQ xs)

/-- Consecutive differences, `np.diff`. -/
def consecutiveDiffs : List ℚ → List ℚ
  | [] => []
  | [_] => []
  | a :: b :: r => (b - a) :: consecutiveDiffs (b :: r)

/-- prog1.py lines 644-646: intervals in milliseconds with the negative ones
(clock non-monotonicity) discarded. -/
def intervalsMs (tss : List ℚ) : List ℚ :=
  ((consecutiveDiffs (sortQ tss)).map (fun d => d * 1000)).filter (fun x => 0 ≤ x)

/-- prog1.py lines 663-669: the three-band split of the intervals around
`center` with half-width `dev`; returns the counts
(in-range band, too-frequent left tail, too-infrequent right tail). -/
def bandCounts (tss : List ℚ) (center dev : ℚ) : Nat × Nat × Nat :=
  (((intervalsMs tss).filter
      (fun x => center - dev ≤ x ∧ x ≤ center + dev)).length,
   ((intervalsMs tss).filter (fun x => x < center - dev)).length,
   ((intervalsMs tss).filter (fun x => center + dev < x)).length)

/-- The per-message view of the callsign write: the sanitized callsign stored
by this message at this downlink format, if any. -/
def identCallsignOf (D : Decoder) (df : Nat) (m : String) : Option String :=
  if df = 17 ∨ df = 18 then
    match D.typecode m with
    | none => none
    | some tc =>
      if 9 ≤ tc ∧ tc ≤ 18 then none
      else if tc = 19 then none
      else if 1 ≤ tc ∧ tc ≤ 4 then
        match get_callsign D m with
        | some c => if c = "" then none else some c
        | none => none
      else none
  else none

/-- The callsign write (if any) that one log line causes for aircraft `aa`. -/
def obsCs1 (D : Decoder) (pf : String → Option ℚ) (target : Option String)
    (aa : String) (parts : List String) : Option String :=
  match parse_ads_b_line pf parts with
  | none => none
  | some p =>
    match D.icao p.msgStr with
    | none => none
    | some a =>
      match D.df p.msgStr with
      | none => none
      | some df =>
        if targetSkip target a then none
        else if a = aa then identCallsignOf D df p.msgStr else none

/-- The non-empty sanitized callsigns produced for aircraft `aa`, in arrival
order. -/
def obsCs (D : Decoder) (pf : String → Option ℚ) (target : Option String)
    (aa : String) (liness : List (List String)) : List String :=
  liness.filterMap (obsCs1 D pf target aa)

/-- The watermark write (if any) that one log line causes for aircraft `aa`:
its timestamp, whenever the line frames and identifies. -/
def obsTs1 (D : Decoder) (pf : String → Option ℚ) (target : Option String)
    (aa : String) (parts : List String) : Option ℚ :=
  match parse_ads_b_line pf parts with
  | none => none
  | some p =>
    match D.icao p.msgStr with
    | none => none
    | some a =>
      match D.df p.msgStr with
      | none => none
      | some _ =>
        if targetSkip target a then none
        else if a = aa then some p.timestamp else none

/-- The timestamps of the successfully-identified messages of aircraft `aa`,
in arrival order. -/
def obsTs (D : Decoder) (pf : String → Option ℚ) (target : Option String)
    (aa : String) (liness : List (List String)) : List ℚ :=
  liness.filterMap (obsTs1 D pf target aa)

/-- One watermark update, main.py lines 82-85. -/
def watermarkUpd (o : Option (ℚ × ℚ)) (t : ℚ) : Option (ℚ × ℚ) :=
  match o with
  | none => some (t, t)
  | some p => some (p.1, t)

/-- The watermark after a sequence of identified-message timestamps. -/
def watermark (o : Option (ℚ × ℚ)) (l : List ℚ) : Option (ℚ × ℚ) :=
  l.foldl watermarkUpd o

/-- Every stored format label was produced by `get_format_label` from some
message and its decoded downlink format. -/
def labelsOK (D : Decoder) (s : AggState) : Prop :=
  ∀ a lbl, lbl ∈ s.dfs a → ∃ m d, D.df m = some d ∧ lbl = get_format_label m d

/-- The range invariant of section 3 of the spec, restricted to the four
series whose values the repository actually range-checks before storage. -/
def rangesOK (s : AggState) : Prop :=
  ∀ a,
    (∀ p ∈ s.altitude a, -2000 ≤ p.2 ∧ p.2 ≤ 60000) ∧
    (∀ p ∈ s.selectedAltitude a, -2000 ≤ p.2 ∧ p.2 ≤ 50000) ∧
    (∀ p ∈ s.altitudeDifference a, -2500 ≤ p.2 ∧ p.2 ≤ 2500) ∧
    (∀ p ∈ s.baroCorrection a, 800 ≤ p.2 ∧ p.2 ≤ 1100)

/-- The IEEE-754 double-precision value nearest to the decimal literal 1.6,
as stored by the numpy float64 timestamp parse: 7205759403792794 / 2^52.  It
exceeds 8/5 because the binary expansion of 1.6 rounds up at bit 53. -/
def fl16 : ℚ := 7205759403792794 / 4503599627370496

/-! ### Concrete fixtures used by witnesses and counterexamples -/

/-- A tiny concrete model of the numpy float64 parse for test lines. -/
def pfNum : String → Option ℚ := fun s =>
  if s = "1" then some 1
  else if s = "2" then some 2
  else if s = "3" then some 3
  else if s = "5" then some 5
  else none

/-- Oracle emitting airborne-position frames of even parity that always
resolve to latitude 10, longitude 20. -/
def DcprTest : Decoder where
  icao := fun _ => some "A"
  df := fun _ => some 17
  typecode := fun _ => some 9
  adsbAltitude := fun _ => none
  altcode := fun _ => none
  idcode := fun _ => none
  velocity := fun _ => none
  selectedAltitude := fun _ => none
  altitudeDiff := fun _ => none
  baroPressureSetting := fun _ => none
  callsign := fun _ => none
  oeFlag := fun _ => some false
  position := fun _ _ _ _ => some (10, 20)

/-- A state whose odd CPR slot for aircraft A holds frame E1 at t = 3. -/
def cprTestState : AggState :=
  { initState with cpr := upd initState.cpr "A" (some (none, some ("E1", 3))) }

/-- Oracle emitting velocity squitters with altitude difference +50 ft. -/
def DfusTest : Decoder where
  icao := fun _ => some "A"
  df := fun _ => some 17
  typecode := fun _ => some 19
  adsbAltitude := fun _ => none
  altcode := fun _ => none
  idcode := fun _ => none
  velocity := fun _ => none
  selectedAltitude := fun _ => none
  altitudeDiff := fun _ => some 50
  baroPressureSetting := fun _ => none
  callsign := fun _ => none
  oeFlag := fun _ => none
  position := fun _ _ _ _ => none

/-- A state whose baro buffer for aircraft A holds (t = 100, 35000 ft). -/
def fusTestState : AggState :=
  { initState with
    baroBuffer := upd initState.baroBuffer "A" (some (100, 35000)) }

/-- Oracle emitting identification squitters: callsign AAA for message AA,
BBB for any other message. -/
def DcsTest : Decoder where
  icao := fun _ => some "A"
  df := fun _ => some 17
  typecode := fun _ => some 1
  adsbAltitude := fun _ => none
  altcode := fun _ => none
  idcode := fun _ => none
  velocity := fun _ => none
  selectedAltitude := fun _ => none
  altitudeDiff := fun _ => none
  baroPressureSetting := fun _ => none
  callsign := fun m => if m = "AA" then some "AAA" else some "BBB"
  oeFlag := fun _ => none
  position := fun _ _ _ _ => none

/-- Oracle identifying every message as aircraft A with downlink format 0 and
no decodable fields. -/
def DwmTest : Decoder where
  icao := fun _ => some "A"
  df := fun _ => some 0
  typecode := fun _ => none
  adsbAltitude := fun _ => none
  altcode := fun _ => none
  idcode := fun _ => none
  velocity := fun _ => none
  selectedAltitude := fun _ => none
  altitudeDiff := fun _ => none
  baroPressureSetting := fun _ => none
  callsign := fun _ => none
  oeFlag := fun _ => none
  position := fun _ _ _ _ => none

/-- Oracle emitting surveillance-identity replies whose squawk strings are
outside any plausible transponder-code range. -/
def DsqTest : Decoder where
  icao := fun m => if m = "AA" then some "A" else some "B"
  df := fun _ => some 5
  typecode := fun _ => none
  adsbAltitude := fun _ => none
  altcode := fun _ => none
  idcode := fun m => if m = "AA" then some "99999" else some "XYZ"
  velocity := fun _ => none
  selectedAltitude := fun _ => none
  altitudeDiff := fun _ => none
  baroPressureSetting := fun _ => none
  callsign := fun _ => none
  oeFlag := fun _ => none
  position := fun _ _ _ _ => none

/-- Oracle emitting airborne-position squitters with barometric altitude
500 ft. -/
def DaltTest : Decoder where
  icao := fun _ => some "A"
  df := fun _ => some 17
  typecode := fun _ => some 9
  adsbAltitude := fun _ => some 500
  altcode := fun _ => none
  idcode := fun _ => none
  velocity := fun _ => none
  selectedAltitude := fun _ => none
  altitudeDiff := fun _ => none
  baroPressureSetting := fun _ => none
  callsign := fun _ => none
  oeFlag := fun _ => none
  position := fun _ _ _ _ => none

/-! ### The ver1 copy (`ver1/prog1.py`)

The first repository version carries its own copies of the line framer, the
field helpers and the ingestion loop (prog1.py lines 35-244 and 847-969).
They are embedded separately here, over the same state and oracle types, so
that the refinement claim compares the two translations. -/

namespace Ver1

/-- prog1.py lines 35-70. -/
def parse_ads_b_line (pf : String → Option ℚ) (parts : List String) :
    Option Parsed :=
  if parts.length < 2 then none
  else
    match pf (parts.headD "") with
    | none => none
    | some ts =>
      let hexParts :=
        if 3 ≤ parts.length ∧
            (strUpper (parts.getD 1 "") = "DF" ∨ strUpper (parts.getD 1 "") = "UF")
        then parts.drop 2 else parts.drop 1
      let spaced := trimChars ((joinSpaced hexParts).map Char.toUpper)
      let msgChars := spaced.filter (fun c => c ≠ ' ')
      if msgChars = [] ∨ ¬ (msgChars.all isHexDigitChar) then none
      else some ⟨ts, (hexBytes msgChars).take MAX_MESSAGE_LENGTH, String.mk msgChars⟩

/-- prog1.py lines 17-25. -/
def MODE_MAP (c : Char) : String :=
  if c = 'U' then "AP"
  else if c = '/' then "ALT"
  else if c = 'M' then "VNAV"
  else if c = 'F' then "LNAV"
  else if c = 'P' then "APP"
  else if c = 'T' then "TCAS"
  else if c = 'C' then "HDG"
  else String.mk [c]

/-- The set comprehension of prog1.py line 161. -/
def processModes (raw : List Char) : List String :=
  raw.foldl (fun acc c => setInsertStr (MODE_MAP c) acc) []

/-- prog1.py lines 92-104. -/
def get_altitude_any_df (D : Decoder) (m : String) (df : Nat) : Option ℚ :=
  if df = 17 ∨ df = 18 then
    match D.typecode m with
    | none => none
    | some tc => if 9 ≤ tc ∧ tc ≤ 18 then D.adsbAltitude m else none
  else if df = 0 ∨ df = 4 ∨ df = 16 ∨ df = 20 then D.altcode m
  else none

/-- prog1.py lines 107-114. -/
def get_squawk (D : Decoder) (m : String) (df : Nat) : Option String :=
  if df = 5 ∨ df = 21 then D.idcode m else none

/-- prog1.py lines 117-130. -/
def get_velocity (D : Decoder) (m : String) : Option ℚ :=
  match D.df m with
  | none => none
  | some d =>
    if d = 17 ∨ d = 18 then
      match D.typecode m with
      | none => none
      | some tc =>
        if tc = 19 then
          match D.velocity m with
          | none => none
          | some v => v.1
        else none
    else none

/-- prog1.py lines 133-145. -/
def get_course (D : Decoder) (m : String) : Option ℚ :=
  match D.df m with
  | none => none
  | some d =>
    if d = 17 ∨ d = 18 then
      match D.typecode m with
      | none => none
      | some tc =>
        if tc = 19 then
          match D.velocity m with
          | none => none
          | some v => v.2.1
        else none
    else none

/-- prog1.py lines 148-165. -/
def get_selected_altitude (D : Decoder) (m : String) :
    Option (ℚ × List String) :=
  match D.df m with
  | none => none
  | some d =>
    if d = 17 ∨ d = 18 then
      match D.typecode m with
      | none => none
      | some tc =>
        if tc = 29 then
          match D.selectedAltitude m with
          | none => none
          | some (oa, raw) =>
            match oa with
            | some v =>
              if -2000 ≤ v ∧ v ≤ 50000 then some (v, processModes raw)
              else none
            | none => none
        else none
    else none

/-- prog1.py lines 168-184. -/
def get_altitude_difference (D : Decoder) (m : String) : Option ℚ :=
  match D.df m with
  | none => none
  | some d =>
    if d = 17 ∨ d = 18 then
      match D.typecode m with
      | none => none
      | some tc =>
        if tc = 19 then
          match D.altitudeDiff m with
          | none => none
          | some v => if -2500 ≤ v ∧ v ≤ 2500 then some v else none
        else none
    else none

/-- prog1.py lines 187-207. -/
def get_baro_correction (D : Decoder) (m : String) : Option ℚ :=
  match D.df m with
  | none => none
  | some d =>
    if d = 17 ∨ d = 18 then
      match D.typecode m with
      | none => none
      | some tc =>
        if tc = 29 then
          match D.baroPressureSetting m with
          | none => none
          | some v => if 800 ≤ v ∧ v ≤ 1100 then some v else none
        else none
    else none

/-- prog1.py lines 210-224. -/
def get_callsign (D : Decoder) (m : String) : Option String :=
  match D.df m with
  | none => none
  | some d =>
    if d = 17 ∨ d = 18 then
      match D.typecode m with
      | none => none
      | some tc =>
        if 1 ≤ tc ∧ tc ≤ 4 then
          match D.callsign m with
          | none => none
          | some c => if c = "" then none else some (sanitizeCallsign c)
        else none
    else none

/-- prog1.py lines 227-244. -/
def get_format_label (m : String) (df : Nat) : String :=
  "DF" ++ toString df ++ "(" ++
    (if df = 0 ∨ df = 4 ∨ df = 5 ∨ df = 11 then "S"
     else if df = 16 ∨ df = 17 ∨ df = 18 ∨ df = 19 ∨ df = 20 ∨ df = 21 ∨ df = 24
     then "L"
     else if m.length * 4 = 56 then "S"
     else if m.length * 4 = 112 then "L"
     else "?") ++ ")"

/-- prog1.py lines 865-879. -/
def phaseCommon (aa : String) (df : Nat) (ts : ℚ) (m : String) (s : AggState) :
    AggState :=
  if df = 11 then
    { s with
      icaoList := setInsertStr aa s.icaoList
      dfs := upd s.dfs aa (setInsertStr (get_format_label m df) (s.dfs aa))
      times := upd s.times aa
        (match s.times aa with
         | none => some (ts, ts)
         | some p => some (p.1, ts))
      tsDf11 := upd s.tsDf11 aa (s.tsDf11 aa ++ [ts]) }
  else
    { s with
      icaoList := setInsertStr aa s.icaoList
      dfs := upd s.dfs aa (setInsertStr (get_format_label m df) (s.dfs aa))
      times := upd s.times aa
        (match s.times aa with
         | none => some (ts, ts)
         | some p => some (p.1, ts)) }

/-- prog1.py lines 882-886. -/
def altUpd (D : Decoder) (aa : String) (df : Nat) (ts : ℚ) (m : String)
    (s : AggState) : AggState :=
  match get_altitude_any_df D m df with
  | some a =>
    if -2000 ≤ a ∧ a ≤ 60000 then
      { s with
        altitude := upd s.altitude aa (s.altitude aa ++ [(ts, a)])
        baroBuffer := upd s.baroBuffer aa (some (ts, a)) }
    else s
  | none => s

/-- prog1.py lines 889-891. -/
def sqUpd (D : Decoder) (aa : String) (df : Nat) (s : AggState) (m : String) :
    AggState :=
  match get_squawk D m df with
  | some q => if q = "" then s else { s with squawks := upd s.squawks aa (some q) }
  | none => s

/-- prog1.py lines 897-911. -/
def phaseTsCollect (aa : String) (ts : ℚ) (tc : Nat) (s : AggState) : AggState :=
  { s with
    tsAirbornePos :=
      if (9 ≤ tc ∧ tc ≤ 18) ∨ (20 ≤ tc ∧ tc ≤ 22) then
        upd s.tsAirbornePos aa (s.tsAirbornePos aa ++ [ts])
      else s.tsAirbornePos
    tsSurfacePos :=
      if 5 ≤ tc ∧ tc ≤ 8 then upd s.tsSurfacePos aa (s.tsSurfacePos aa ++ [ts])
      else s.tsSurfacePos
    tsIdent :=
      if 1 ≤ tc ∧ tc ≤ 4 then upd s.tsIdent aa (s.tsIdent aa ++ [ts])
      else s.tsIdent
    tsSpeed :=
      if tc = 19 then upd s.tsSpeed aa (s.tsSpeed aa ++ [ts]) else s.tsSpeed
    tsStatus :=
      if tc = 28 then upd s.tsStatus aa (s.tsStatus aa ++ [ts]) else s.tsStatus
    tsTargetState :=
      if tc = 29 then upd s.tsTargetState aa (s.tsTargetState aa ++ [ts])
      else s.tsTargetState
    tsOpStatus :=
      if tc = 31 then upd s.tsOpStatus aa (s.tsOpStatus aa ++ [ts])
      else s.tsOpStatus }

/-- prog1.py lines 919-926. -/
def cprAfterStore (D : Decoder) (aa : String) (ts : ℚ)
    (pair : Option (String × ℚ) × Option (String × ℚ)) (s : AggState) :
    AggState × Nat :=
  match pair with
  | (some (m0, t0), some (m1, t1)) =>
    if |t0 - t1| < 10 then
      (match D.position m0 m1 t0 t1 with
       | some q =>
         { s with
           positions := upd s.positions aa (s.positions aa ++ [(ts, q.1, q.2)])
           cpr := upd s.cpr aa (some (none, none)) }
       | none => { s with cpr := upd s.cpr aa (some (none, none)) }, 1)
    else (s, 0)
  | _ => (s, 0)

/-- prog1.py lines 914-926. -/
def cprPhase (D : Decoder) (aa : String) (ts : ℚ) (m : String) (s : AggState) :
    AggState × Nat :=
  match D.oeFlag m with
  | none => ({ s with cpr := upd s.cpr aa (some ((s.cpr aa).getD (none, none))) }, 0)
  | some oe =>
    cprAfterStore D aa ts (storeSlot oe (m, ts) ((s.cpr aa).getD (none, none)))
      { s with
        cpr := upd s.cpr aa (some (storeSlot oe (m, ts) ((s.cpr aa).getD (none, none)))) }

/-- prog1.py lines 930-932. -/
def speedUpd (D : Decoder) (aa : String) (ts : ℚ) (m : String) (s : AggState) :
    AggState :=
  match get_velocity D m with
  | some gs => { s with speed := upd s.speed aa (s.speed aa ++ [(ts, gs)]) }
  | none => s

/-- prog1.py lines 933-935. -/
def courseUpd (D : Decoder) (aa : String) (ts : ℚ) (m : String) (s : AggState) :
    AggState :=
  match get_course D m with
  | some c => { s with courses := upd s.courses aa (s.courses aa ++ [(ts, c)]) }
  | none => s

/-- prog1.py lines 938-946. -/
def diffFusion (D : Decoder) (aa : String) (ts : ℚ) (m : String) (s : AggState) :
    AggState :=
  match get_altitude_difference D m with
  | some d =>
    match s.baroBuffer aa with
    | some (lt, lb) =>
      if |ts - lt| < 5 then
        { s with
          altitudeDifference :=
            upd s.altitudeDifference aa (s.altitudeDifference aa ++ [(ts, d)])
          gnssAltitude :=
            upd s.gnssAltitude aa (s.gnssAltitude aa ++ [(ts, lb + d)]) }
      else
        { s with
          altitudeDifference :=
            upd s.altitudeDifference aa (s.altitudeDifference aa ++ [(ts, d)]) }
    | none =>
      { s with
        altitudeDifference :=
          upd s.altitudeDifference aa (s.altitudeDifference aa ++ [(ts, d)]) }
  | none => s

/-- prog1.py lines 929-946. -/
def velPhase (D : Decoder) (aa : String) (ts : ℚ) (m : String) (s : AggState) :
    AggState :=
  diffFusion D aa ts m (courseUpd D aa ts m (speedUpd D aa ts m s))

/-- prog1.py lines 949-951. -/
def csPhase (D : Decoder) (aa : String) (m : String) (s : AggState) : AggState :=
  match get_callsign D m with
  | some c =>
    if c = "" then s else { s with callsigns := upd s.callsigns aa (some c) }
  | none => s

/-- prog1.py lines 955-962. -/
def selUpd (D : Decoder) (aa : String) (ts : ℚ) (m : String) (s : AggState) :
    AggState :=
  match get_selected_altitude D m with
  | some (v, md) =>
    { s with
      selectedAltitude :=
        upd s.selectedAltitude aa (s.selectedAltitude aa ++ [(ts, v)])
      hasSelectedAlt := upd s.hasSelectedAlt aa true
      modes := upd s.modes aa (some (unionStr ((s.modes aa).getD []) md)) }
  | none => s

/-- prog1.py lines 964-966. -/
def baroCorrUpd (D : Decoder) (aa : String) (ts : ℚ) (m : String) (s : AggState) :
    AggState :=
  match get_baro_correction D m with
  | some b =>
    { s with
      baroCorrection := upd s.baroCorrection aa (s.baroCorrection aa ++ [(ts, b)]) }
  | none => s

/-- prog1.py lines 954-966. -/
def selPhase (D : Decoder) (aa : String) (ts : ℚ) (m : String) (s : AggState) :
    AggState :=
  baroCorrUpd D aa ts m (selUpd D aa ts m s)

/-- prog1.py lines 865-966. -/
def processMsg (D : Decoder) (aa : String) (df : Nat) (ts : ℚ) (m : String)
    (s : AggState) : AggState × Nat :=
  let s2 := sqUpd D aa df (altUpd D aa df ts m (phaseCommon aa df ts m s)) m
  if df = 17 ∨ df = 18 then
    match D.typecode m with
    | none => (s2, 0)
    | some tc =>
      let s3 := phaseTsCollect aa ts tc s2
      if 9 ≤ tc ∧ tc ≤ 18 then cprPhase D aa ts m s3
      else if tc = 19 then (velPhase D aa ts m s3, 0)
      else if 1 ≤ tc ∧ tc ≤ 4 then (csPhase D aa m s3, 0)
      else if tc = 29 then (selPhase D aa ts m s3, 0)
      else (s3, 0)
  else (s2, 0)

/-- prog1.py lines 851-863. -/
def step (D : Decoder) (pf : String → Option ℚ) (target : Option String)
    (sn : AggState × Nat) (parts : List String) : AggState × Nat :=
  match parse_ads_b_line pf parts with
  | none => sn
  | some p =>
    match D.icao p.msgStr with
    | none => sn
    | some aa =>
      match D.df p.msgStr with
      | none => sn
      | some df =>
        if targetSkip target aa then sn
        else
          let r := processMsg D aa df p.timestamp p.msgStr sn.1
          (r.1, sn.2 + r.2)

/-- prog1.py lines 847-969: the whole ver1 ingestion loop. -/
def ingest (D : Decoder) (pf : String → Option ℚ) (target : Option String)
    (liness : List (List String)) : AggState × Nat :=
  liness.foldl (step D pf target) (initState, 0)

end Ver1

/-! ### Basic facts about the map and option helpers -/

@[simp] theorem upd_self {α : Type} (f : String → α) (k : String) (v : α) :
    upd f k v k = v := by simp [upd]

@[simp] theorem upd_other {α : Type} (f : String → α) (k : String) (v : α)
    (x : String) (h : x ≠ k) : upd f k v x = f x := by simp [upd, h]

@[simp] theorem optOr_some {α : Type} (x : α) (b : Option α) :
    optOr (some x) b = some x := rfl

@[simp] theorem optOr_none {α : Type} (b : Option α) : optOr none b = b := rfl

/-! ### Frame lemmas: which phase touches which dictionary -/

theorem phaseCommon_times (aa : String) (df : Nat) (ts : ℚ) (m : String)
    (s : AggState) :
    (phaseCommon aa df ts m s).times =
      upd s.times aa
        (match s.times aa with
         | none => some (ts, ts)
         | some p => some (p.1, ts)) := by
  unfold phaseCommon; (repeat' split) <;> rfl

theorem phaseCommon_dfs (aa : String) (df : Nat) (ts : ℚ) (m : String)
    (s : AggState) :
    (phaseCommon aa df ts m s).dfs =
      upd s.dfs aa (setInsertStr (get_format_label m df) (s.dfs aa)) := by
  unfold phaseCommon; (repeat' split) <;> rfl

theorem phaseCommon_callsigns (aa : String) (df : Nat) (ts : ℚ) (m : String)
    (s : AggState) : (phaseCommon aa df ts m s).callsigns = s.callsigns := by
  unfold phaseCommon; (repeat' split) <;> rfl

theorem phaseCommon_cpr (aa : String) (df : Nat) (ts : ℚ) (m : String)
    (s : AggState) : (phaseCommon aa df ts m s).cpr = s.cpr := by
  unfold phaseCommon; (repeat' split) <;> rfl

theorem phaseCommon_positions (aa : String) (df : Nat) (ts : ℚ) (m : String)
    (s : AggState) : (phaseCommon aa df ts m s).positions = s.positions := by
  unfold phaseCommon; (repeat' split) <;> rfl

theorem phaseCommon_baroBuffer (aa : String) (df : Nat) (ts : ℚ) (m : String)
    (s : AggState) : (phaseCommon aa df ts m s).baroBuffer = s.baroBuffer := by
  unfold phaseCommon; (repeat' split) <;> rfl

theorem phaseCommon_gnssAltitude (aa : String) (df : Nat) (ts : ℚ) (m : String)
    (s : AggState) : (phaseCommon aa df ts m s).gnssAltitude = s.gnssAltitude := by
  unfold phaseCommon; (repeat' split) <;> rfl

theorem phaseCommon_altitudeDifference (aa : String) (df : Nat) (ts : ℚ)
    (m : String) (s : AggState) :
    (phaseCommon aa df ts m s).altitudeDifference = s.altitudeDifference := by
  unfold phaseCommon; (repeat' split) <;> rfl

theorem phaseCommon_altitude (aa : String) (df : Nat) (ts : ℚ) (m : String)
    (s : AggState) : (phaseCommon aa df ts m s).altitude = s.altitude := by
  unfold phaseCommon; (repeat' split) <;> rfl

theorem phaseCommon_selectedAltitude (aa : String) (df : Nat) (ts : ℚ)
    (m : String) (s : AggState) :
    (phaseCommon aa df ts m s).selectedAltitude = s.selectedAltitude := by
  unfold phaseCommon; (repeat' split) <;> rfl

theorem phaseCommon_baroCorrection (aa : String) (df : Nat) (ts : ℚ)
    (m : String) (s : AggState) :
    (phaseCommon aa df ts m s).baroCorrection = s.baroCorrection := by
  unfold phaseCommon; (repeat' split) <;> rfl

theorem phaseCommon_squawks (aa : String) (df : Nat) (ts : ℚ) (m : String)
    (s : AggState) : (phaseCommon aa df ts m s).squawks = s.squawks := by
  unfold phaseCommon; (repeat' split) <;> rfl

theorem altUpd_times (D : Decoder) (aa : String) (df : Nat) (ts : ℚ) (m : String)
    (s : AggState) : (altUpd D aa df ts m s).times = s.times := by
  unfold altUpd; (repeat' split) <;> rfl

theorem altUpd_callsigns (D : Decoder) (aa : String) (df : Nat) (ts : ℚ)
    (m : String) (s : AggState) :
    (altUpd D aa df ts m s).callsigns = s.callsigns := by
  unfold altUpd; (repeat' split) <;> rfl

theorem altUpd_dfs (D : Decoder) (aa : String) (df : Nat) (ts : ℚ) (m : String)
    (s : AggState) : (altUpd D aa df ts m s).dfs = s.dfs := by
  unfold altUpd; (repeat' split) <;> rfl

theorem altUpd_cpr (D : Decoder) (aa : String) (df : Nat) (ts : ℚ) (m : String)
    (s : AggState) : (altUpd D aa df ts m s).cpr = s.cpr := by
  unfold altUpd; (repeat' split) <;> rfl

theorem altUpd_positions (D : Decoder) (aa : String) (df : Nat) (ts : ℚ)
    (m : String) (s : AggState) :
    (altUpd D aa df ts m s).positions = s.positions := by
  unfold altUpd; (repeat' split) <;> rfl

theorem altUpd_gnssAltitude (D : Decoder) (aa : String) (df : Nat) (ts : ℚ)
    (m : String) (s : AggState) :
    (altUpd D aa df ts m s).gnssAltitude = s.gnssAltitude := by
  unfold altUpd; (repeat' split) <;> rfl

theorem altUpd_altitudeDifference (D : Decoder) (aa : String) (df : Nat) (ts : ℚ)
    (m : String) (s : AggState) :
    (altUpd D aa df ts m s).altitudeDifference = s.altitudeDifference := by
  unfold altUpd; (repeat' split) <;> rfl

theorem altUpd_selectedAltitude (D : Decoder) (aa : String) (df : Nat) (ts : ℚ)
    (m : String) (s : AggState) :
    (altUpd D aa df ts m s).selectedAltitude = s.selectedAltitude := by
  unfold altUpd; (repeat' split) <;> rfl

theorem altUpd_baroCorrection (D : Decoder) (aa : String) (df : Nat) (ts : ℚ)
    (m : String) (s : AggState) :
    (altUpd D aa df ts m s).baroCorrection = s.baroCorrection := by
  unfold altUpd; (repeat' split) <;> rfl

theorem sqUpd_times (D : Decoder) (aa : String) (df : Nat) (s : AggState)
    (m : String) : (sqUpd D aa df s m).times = s.times := by
  unfold sqUpd; (repeat' split) <;> rfl

theorem sqUpd_callsigns (D : Decoder) (aa : String) (df : Nat) (s : AggState)
    (m : String) : (sqUpd D aa df s m).callsigns = s.callsigns := by
  unfold sqUpd; (repeat' split) <;> rfl

theorem sqUpd_dfs (D : Decoder) (aa : String) (df : Nat) (s : AggState)
    (m : String) : (sqUpd D aa df s m).dfs = s.dfs := by
  unfold sqUpd; (repeat' split) <;> rfl

theorem sqUpd_cpr (D : Decoder) (aa : String) (df : Nat) (s : AggState)
    (m : String) : (sqUpd D aa df s m).cpr = s.cpr := by
  unfold sqUpd; (repeat' split) <;> rfl

theorem sqUpd_positions (D : Decoder) (aa : String) (df : Nat) (s : AggState)
    (m : String) : (sqUpd D aa df s m).positions = s.positions := by
  unfold sqUpd; (repeat' split) <;> rfl

theorem sqUpd_baroBuffer (D : Decoder) (aa : String) (df : Nat) (s : AggState)
    (m : String) : (sqUpd D aa df s m).baroBuffer = s.baroBuffer := by
  unfold sqUpd; (repeat' split) <;> rfl

theorem sqUpd_gnssAltitude (D : Decoder) (aa : String) (df : Nat) (s : AggState)
    (m : String) : (sqUpd D aa df s m).gnssAltitude = s.gnssAltitude := by
  unfold sqUpd; (repeat' split) <;> rfl

theorem sqUpd_altitudeDifference (D : Decoder) (aa : String) (df : Nat)
    (s : AggState) (m : String) :
    (sqUpd D aa df s m).altitudeDifference = s.altitudeDifference := by
  unfold sqUpd; (repeat' split) <;> rfl

theorem sqUpd_altitude (D : Decoder) (aa : String) (df : Nat) (s : AggState)
    (m : String) : (sqUpd D aa df s m).altitude = s.altitude := by
  unfold sqUpd; (repeat' split) <;> rfl

theorem sqUpd_selectedAltitude (D : Decoder) (aa : String) (df : Nat)
    (s : AggState) (m : String) :
    (sqUpd D aa df s m).selectedAltitude = s.selectedAltitude := by
  unfold sqUpd; (repeat' split) <;> rfl

theorem sqUpd_baroCorrection (D : Decoder) (aa : String) (df : Nat)
    (s : AggState) (m : String) :
    (sqUpd D aa df s m).baroCorrection = s.baroCorrection := by
  unfold sqUpd; (repeat' split) <;> rfl

theorem phaseTsCollect_times (aa : String) (ts : ℚ) (tc : Nat) (s : AggState) :
    (phaseTsCollect aa ts tc s).times = s.times := rfl

theorem phaseTsCollect_callsigns (aa : String) (ts : ℚ) (tc : Nat)
    (s : AggState) : (phaseTsCollect aa ts tc s).callsigns = s.callsigns := rfl

theorem phaseTsCollect_dfs (aa : String) (ts : ℚ) (tc : Nat) (s : AggState) :
    (phaseTsCollect aa ts tc s).dfs = s.dfs := rfl

theorem phaseTsCollect_cpr (aa : String) (ts : ℚ) (tc : Nat) (s : AggState) :
    (phaseTsCollect aa ts tc s).cpr = s.cpr := rfl

theorem phaseTsCollect_positions (aa : String) (ts : ℚ) (tc : Nat)
    (s : AggState) : (phaseTsCollect aa ts tc s).positions = s.positions := rfl

theorem phaseTsCollect_baroBuffer (aa : String) (ts : ℚ) (tc : Nat)
    (s : AggState) : (phaseTsCollect aa ts tc s).baroBuffer = s.baroBuffer := rfl

theorem phaseTsCollect_gnssAltitude (aa : String) (ts : ℚ) (tc : Nat)
    (s : AggState) :
    (phaseTsCollect aa ts tc s).gnssAltitude = s.gnssAltitude := rfl

theorem phaseTsCollect_altitudeDifference (aa : String) (ts : ℚ) (tc : Nat)
    (s : AggState) :
    (phaseTsCollect aa ts tc s).altitudeDifference = s.altitudeDifference := rfl

theorem phaseTsCollect_altitude (aa : String) (ts : ℚ) (tc : Nat)
    (s : AggState) : (phaseTsCollect aa ts tc s).altitude = s.altitude := rfl

theorem phaseTsCollect_selectedAltitude (aa : String) (ts : ℚ) (tc : Nat)
    (s : AggState) :
    (phaseTsCollect aa ts tc s).selectedAltitude = s.selectedAltitude := rfl

theorem phaseTsCollect_baroCorrection (aa : String) (ts : ℚ) (tc : Nat)
    (s : AggState) :
    (phaseTsCollect aa ts tc s).baroCorrection = s.baroCorrection := rfl

theorem cprPhase_times (D : Decoder) (aa : String) (ts : ℚ) (m : String)
    (s : AggState) : ((cprPhase D aa ts m s).1).times = s.times := by
  unfold cprPhase cprAfterStore; (repeat' split) <;> rfl

theorem cprPhase_callsigns (D : Decoder) (aa : String) (ts : ℚ) (m : String)
    (s : AggState) : ((cprPhase D aa ts m s).1).callsigns = s.callsigns := by
  unfold cprPhase cprAfterStore; (repeat' split) <;> rfl

theorem cprPhase_dfs (D : Decoder) (aa : String) (ts : ℚ) (m : String)
    (s : AggState) : ((cprPhase D aa ts m s).1).dfs = s.dfs := by
  unfold cprPhase cprAfterStore; (repeat' split) <;> rfl

theorem cprPhase_altitude (D : Decoder) (aa : String) (ts : ℚ) (m : String)
    (s : AggState) : ((cprPhase D aa ts m s).1).altitude = s.altitude := by
  unfold cprPhase cprAfterStore; (repeat' split) <;> rfl

theorem cprPhase_selectedAltitude (D : Decoder) (aa : String) (ts : ℚ)
    (m : String) (s : AggState) :
    ((cprPhase D aa ts m s).1).selectedAltitude = s.selectedAltitude := by
  unfold cprPhase cprAfterStore; (repeat' split) <;> rfl

theorem cprPhase_altitudeDifference (D : Decoder) (aa : String) (ts : ℚ)
    (m : String) (s : AggState) :
    ((cprPhase D aa ts m s).1).altitudeDifference = s.altitudeDifference := by
  unfold cprPhase cprAfterStore; (repeat' split) <;> rfl

theorem cprPhase_baroCorrection (D : Decoder) (aa : String) (ts : ℚ)
    (m : String) (s : AggState) :
    ((cprPhase D aa ts m s).1).baroCorrection = s.baroCorrection := by
  unfold cprPhase cprAfterStore; (repeat' split) <;> rfl

theorem velPhase_times (D : Decoder) (aa : String) (ts : ℚ) (m : String)
    (s : AggState) : (velPhase D aa ts m s).times = s.times := by
  unfold velPhase diffFusion courseUpd speedUpd; (repeat' split) <;> rfl

theorem velPhase_callsigns (D : Decoder) (aa : String) (ts : ℚ) (m : String)
    (s : AggState) : (velPhase D aa ts m s).callsigns = s.callsigns := by
  unfold velPhase diffFusion courseUpd speedUpd; (repeat' split) <;> rfl

theorem velPhase_dfs (D : Decoder) (aa : String) (ts : ℚ) (m : String)
    (s : AggState) : (velPhase D aa ts m s).dfs = s.dfs := by
  unfold velPhase diffFusion courseUpd speedUpd; (repeat' split) <;> rfl

theorem velPhase_altitude (D : Decoder) (aa : String) (ts : ℚ) (m : String)
    (s : AggState) : (velPhase D aa ts m s).altitude = s.altitude := by
  unfold velPhase diffFusion courseUpd speedUpd; (repeat' split) <;> rfl

theorem velPhase_selectedAltitude (D : Decoder) (aa : String) (ts : ℚ)
    (m : String) (s : AggState) :
    (velPhase D aa ts m s).selectedAltitude = s.selectedAltitude := by
  unfold velPhase diffFusion courseUpd speedUpd; (repeat' split) <;> rfl

theorem velPhase_baroCorrection (D : Decoder) (aa : String) (ts : ℚ)
    (m : String) (s : AggState) :
    (velPhase D aa ts m s).baroCorrection = s.baroCorrection := by
  unfold velPhase diffFusion courseUpd speedUpd; (repeat' split) <;> rfl

theorem csPhase_times (D : Decoder) (aa : String) (m : String) (s : AggState) :
    (csPhase D aa m s).times = s.times := by
  unfold csPhase; (repeat' split) <;> rfl

theorem csPhase_dfs (D : Decoder) (aa : String) (m : String) (s : AggState) :
    (csPhase D aa m s).dfs = s.dfs := by
  unfold csPhase; (repeat' split) <;> rfl

theorem csPhase_altitude (D : Decoder) (aa : String) (m : String)
    (s : AggState) : (csPhase D aa m s).altitude = s.altitude := by
  unfold csPhase; (repeat' split) <;> rfl

theorem csPhase_selectedAltitude (D : Decoder) (aa : String) (m : String)
    (s : AggState) : (csPhase D aa m s).selectedAltitude = s.selectedAltitude := by
  unfold csPhase; (repeat' split) <;> rfl

theorem csPhase_altitudeDifference (D : Decoder) (aa : String) (m : String)
    (s : AggState) :
    (csPhase D aa m s).altitudeDifference = s.altitudeDifference := by
  unfold csPhase; (repeat' split) <;> rfl

theorem csPhase_baroCorrection (D : Decoder) (aa : String) (m : String)
    (s : AggState) : (csPhase D aa m s).baroCorrection = s.baroCorrection := by
  unfold csPhase; (repeat' split) <;> rfl

theorem selPhase_times (D : Decoder) (aa : String) (ts : ℚ) (m : String)
    (s : AggState) : (selPhase D aa ts m s).times = s.times := by
  unfold selPhase baroCorrUpd selUpd; (repeat' split) <;> rfl

theorem selPhase_callsigns (D : Decoder) (aa : String) (ts : ℚ) (m : String)
    (s : AggState) : (selPhase D aa ts m s).callsigns = s.callsigns := by
  unfold selPhase baroCorrUpd selUpd; (repeat' split) <;> rfl

theorem selPhase_dfs (D : Decoder) (aa : String) (ts : ℚ) (m : String)
    (s : AggState) : (selPhase D aa ts m s).dfs = s.dfs := by
  unfold selPhase baroCorrUpd selUpd; (repeat' split) <;> rfl

theorem selPhase_altitude (D : Decoder) (aa : String) (ts : ℚ) (m : String)
    (s : AggState) : (selPhase D aa ts m s).altitude = s.altitude := by
  unfold selPhase baroCorrUpd selUpd; (repeat' split) <;> rfl

theorem selPhase_altitudeDifference (D : Decoder) (aa : String) (ts : ℚ)
    (m : String) (s : AggState) :
    (selPhase D aa ts m s).altitudeDifference = s.altitudeDifference := by
  unfold selPhase baroCorrUpd selUpd; (repeat' split) <;> rfl

/-! ### Per-message characterizations of the watermark, callsign and label
dictionaries -/

theorem processMsg_times (D : Decoder) (aa : String) (df : Nat) (ts : ℚ)
    (m : String) (s : AggState) :
    ((processMsg D aa df ts m s).1).times =
      upd s.times aa
        (match s.times aa with
         | none => some (ts, ts)
         | some p => some (p.1, ts)) := by
  unfold processMsg
  (repeat' split) <;>
    simp_all [cprPhase_times, velPhase_times, csPhase_times, selPhase_times,
      phaseTsCollect_times, sqUpd_times, altUpd_times, phaseCommon_times]

theorem csPhase_callsigns (D : Decoder) (aa : String) (m : String)
    (s : AggState) :
    (csPhase D aa m s).callsigns =
      match get_callsign D m with
      | some c => if c = "" then s.callsigns else upd s.callsigns aa (some c)
      | none => s.callsigns := by
  unfold csPhase; (repeat' split) <;> rfl

theorem processMsg_callsigns (D : Decoder) (aa : String) (df : Nat) (ts : ℚ)
    (m : String) (s : AggState) :
    ((processMsg D aa df ts m s).1).callsigns =
      match identCallsignOf D df m with
      | some c => upd s.callsigns aa (some c)
      | none => s.callsigns := by
  unfold processMsg identCallsignOf
  (repeat' split) <;>
    (try cases hgc : get_callsign D m) <;>
    simp_all [cprPhase_callsigns, velPhase_callsigns, selPhase_callsigns,
      csPhase_callsigns, phaseTsCollect_callsigns, sqUpd_callsigns,
      altUpd_callsigns, phaseCommon_callsigns] <;>
    (rintro rfl; simp_all)

theorem processMsg_dfs (D : Decoder) (aa : String) (df : Nat) (ts : ℚ)
    (m : String) (s : AggState) :
    ((processMsg D aa df ts m s).1).dfs =
      upd s.dfs aa (setInsertStr (get_format_label m df) (s.dfs aa)) := by
  unfold processMsg
  (repeat' split) <;>
    simp [cprPhase_dfs, velPhase_dfs, csPhase_dfs, selPhase_dfs,
      phaseTsCollect_dfs, sqUpd_dfs, altUpd_dfs, phaseCommon_dfs]

/-! ### Run-level bookkeeping: the observed callsigns and timestamps of one
aircraft along a log -/

theorem step_callsigns (D : Decoder) (pf : String → Option ℚ)
    (target : Option String) (sn : AggState × Nat) (parts : List String)
    (aa : String) :
    ((step D pf target sn parts).1).callsigns aa =
      optOr (obsCs1 D pf target aa parts) (sn.1.callsigns aa) := by
  unfold step obsCs1
  (repeat' split) <;>
    (try simp_all [processMsg_callsigns, upd]) <;>
    (repeat' split) <;>
    (try simp_all [ne_comm])

theorem optOr_assoc {α : Type} (a b c : Option α) :
    optOr (optOr a b) c = optOr a (optOr b c) := by
  cases a <;> rfl

theorem getLastq_cons {α : Type} (c : α) (t : List α) :
    (c :: t).getLast? = optOr t.getLast? (some c) := by
  induction t generalizing c with
  | nil => rfl
  | cons x r ih =>
    rw [List.getLast?_cons_cons, ih x]
    cases hr : r.getLast? <;> rfl

theorem foldl_callsigns (D : Decoder) (pf : String → Option ℚ)
    (target : Option String) (aa : String) (liness : List (List String)) :
    ∀ sn : AggState × Nat,
      ((liness.foldl (step D pf target) sn).1).callsigns aa =
        optOr (obsCs D pf target aa liness).getLast? (sn.1.callsigns aa) := by
  induction liness with
  | nil => intro sn; simp [obsCs]
  | cons parts l ih =>
    intro sn
    rw [List.foldl_cons, ih]
    cases h : obsCs1 D pf target aa parts <;>
      simp [obsCs, List.filterMap_cons, h, step_callsigns, getLastq_cons,
        optOr_assoc]

theorem step_times (D : Decoder) (pf : String → Option ℚ)
    (target : Option String) (sn : AggState × Nat) (parts : List String)
    (aa : String) :
    ((step D pf target sn parts).1).times aa =
      match obsTs1 D pf target aa parts with
      | some t => watermarkUpd (sn.1.times aa) t
      | none => sn.1.times aa := by
  unfold step obsTs1 watermarkUpd
  (repeat' split) <;>
    (try simp_all [processMsg_times, upd]) <;>
    (repeat' split) <;>
    (try simp_all [ne_comm])

theorem foldl_times (D : Decoder) (pf : String → Option ℚ)
    (target : Option String) (aa : String) (liness : List (List String)) :
    ∀ sn : AggState × Nat,
      ((liness.foldl (step D pf target) sn).1).times aa =
        watermark (sn.1.times aa) (obsTs D pf target aa liness) := by
  induction liness with
  | nil => intro sn; simp [obsTs, watermark]
  | cons parts l ih =>
    intro sn
    rw [List.foldl_cons, ih]
    cases h : obsTs1 D pf target aa parts <;>
      simp [obsTs, List.filterMap_cons, h, step_times, watermark]

theorem watermark_some (l : List ℚ) :
    ∀ f x, watermark (some (f, x)) l = some (f, l.getLastD x) := by
  induction l with
  | nil => intro f x; rfl
  | cons t r ih =>
    intro f x
    rw [List.getLastD_cons]
    exact ih f t

/-! ### Provenance of the format-label sets (for the Capability Filter) -/

theorem setInsertStr_mem {x y : String} {l : List String}
    (h : y ∈ setInsertStr x l) : y = x ∨ y ∈ l := by
  unfold setInsertStr at h
  split at h
  · exact Or.inr h
  · rcases List.mem_append.1 h with h1 | h1
    · exact Or.inr h1
    · simp at h1; exact Or.inl h1

theorem step_labelsOK (D : Decoder) (pf : String → Option ℚ)
    (target : Option String) (sn : AggState × Nat) (parts : List String)
    (h : labelsOK D sn.1) : labelsOK D (step D pf target sn parts).1 := by
  intro a lbl hl
  unfold step at hl
  repeat' split at hl
  all_goals try exact h a lbl hl
  rename_i x1 p hp x2 a0 hi x3 df hd hts
  rw [processMsg_dfs] at hl
  simp only [upd] at hl
  by_cases ha : a = a0
  · rw [if_pos ha] at hl
    subst ha
    rcases setInsertStr_mem hl with rfl | hmem
    · exact ⟨p.msgStr, df, hd, rfl⟩
    · exact h a lbl hmem
  · rw [if_neg ha] at hl
    exact h a lbl hl

theorem ingest_labelsOK (D : Decoder) (pf : String → Option ℚ)
    (target : Option String) (liness : List (List String)) :
    labelsOK D (ingest D pf target liness).1 := by
  unfold ingest
  have main : ∀ sn, labelsOK D sn.1 →
      labelsOK D (liness.foldl (step D pf target) sn).1 := by
    induction liness with
    | nil => intro sn h; exact h
    | cons parts l ih =>
      intro sn h
      rw [List.foldl_cons]
      exact ih _ (step_labelsOK D pf target sn parts h)
  refine main (initState, 0) ?_
  intro a lbl hl
  simp [initState] at hl

theorem labelShape (m : String) (d : Nat) :
    get_format_label m d = "DF" ++ toString d ++ "(" ++ "S" ++ ")" ∨
    get_format_label m d = "DF" ++ toString d ++ "(" ++ "L" ++ ")" ∨
    get_format_label m d = "DF" ++ toString d ++ "(" ++ "?" ++ ")" := by
  unfold get_format_label
  (repeat' split) <;> simp

/-- For downlink formats in the range actually emitted by the external
decoder (the pyModeS `df` function caps its result at 24), the substring test
of the Capability Filter recognizes exactly the formats 17 and 18. -/
theorem hasAdsb_label_iff (m : String) (d : Nat) (hd : d ≤ 24) :
    hasAdsbLabel (get_format_label m d) = true ↔ (d = 17 ∨ d = 18) := by
  rcases labelShape m d with h | h | h <;> rw [h] <;>
    interval_cases d <;> decide

theorem capabilityRetained_mem (s : AggState) (aa : String) :
    aa ∈ capabilityRetained s ↔
      aa ∈ s.icaoList ∧ ∃ lbl ∈ s.dfs aa, hasAdsbLabel lbl := by
  unfold capabilityRetained
  simp [List.mem_filter, List.any_eq_true]

/-! ### The plausibility-range invariant -/

theorem upd_append_mem {α : Type} {f : String → List α} {aa a : String}
    {q : α} {p : α} (hp : p ∈ upd f aa (f aa ++ [q]) a) : p ∈ f a ∨ p = q := by
  unfold upd at hp
  split at hp
  · rename_i ha
    rcases List.mem_append.1 hp with h1 | h1
    · exact Or.inl (by rw [ha]; exact h1)
    · simp at h1; exact Or.inr h1
  · exact Or.inl hp

theorem get_selected_altitude_range {D : Decoder} {m : String} {v : ℚ}
    {md : List String} (h : get_selected_altitude D m = some (v, md)) :
    -2000 ≤ v ∧ v ≤ 50000 := by
  unfold get_selected_altitude at h
  (repeat' split at h) <;> simp_all

theorem get_altitude_difference_range {D : Decoder} {m : String} {d : ℚ}
    (h : get_altitude_difference D m = some d) : -2500 ≤ d ∧ d ≤ 2500 := by
  unfold get_altitude_difference at h
  (repeat' split at h) <;> simp_all

theorem get_baro_correction_range {D : Decoder} {m : String} {b : ℚ}
    (h : get_baro_correction D m = some b) : 800 ≤ b ∧ b ≤ 1100 := by
  unfold get_baro_correction at h
  (repeat' split at h) <;> simp_all

theorem processMsg_altitude_eq (D : Decoder) (aa : String) (df : Nat) (ts : ℚ)
    (m : String) (s : AggState) :
    ((processMsg D aa df ts m s).1).altitude =
      (altUpd D aa df ts m (phaseCommon aa df ts m s)).altitude := by
  unfold processMsg
  (repeat' split) <;>
    simp [cprPhase_altitude, velPhase_altitude, csPhase_altitude,
      selPhase_altitude, phaseTsCollect_altitude, sqUpd_altitude]

theorem processMsg_altitude_mem {D : Decoder} {aa : String} {df : Nat} {ts : ℚ}
    {m : String} {s : AggState} {a : String} {p : ℚ × ℚ}
    (hp : p ∈ ((processMsg D aa df ts m s).1).altitude a) :
    p ∈ s.altitude a ∨ (-2000 ≤ p.2 ∧ p.2 ≤ 60000) := by
  rw [processMsg_altitude_eq] at hp
  unfold altUpd at hp
  repeat' split at hp
  all_goals try dsimp only at hp
  all_goals try rw [phaseCommon_altitude] at hp
  all_goals try exact Or.inl hp
  rename_i x a0 heq hr
  rcases upd_append_mem hp with h1 | h1
  · exact Or.inl h1
  · right; rw [h1]; exact hr

theorem processMsg_selectedAltitude_mem {D : Decoder} {aa : String} {df : Nat}
    {ts : ℚ} {m : String} {s : AggState} {a : String} {p : ℚ × ℚ}
    (hp : p ∈ ((processMsg D aa df ts m s).1).selectedAltitude a) :
    p ∈ s.selectedAltitude a ∨ (-2000 ≤ p.2 ∧ p.2 ≤ 50000) := by
  unfold processMsg selPhase baroCorrUpd selUpd at hp
  repeat' split at hp
  all_goals try dsimp only at hp
  all_goals
    try simp only [cprPhase_selectedAltitude, velPhase_selectedAltitude,
      csPhase_selectedAltitude, phaseTsCollect_selectedAltitude,
      sqUpd_selectedAltitude, altUpd_selectedAltitude,
      phaseCommon_selectedAltitude] at hp
  all_goals try exact Or.inl hp
  all_goals
    rcases upd_append_mem hp with h1 | h1
  all_goals try exact Or.inl h1
  all_goals right; rw [h1]
  all_goals exact get_selected_altitude_range (by assumption)

theorem processMsg_altitudeDifference_mem {D : Decoder} {aa : String} {df : Nat}
    {ts : ℚ} {m : String} {s : AggState} {a : String} {p : ℚ × ℚ}
    (hp : p ∈ ((processMsg D aa df ts m s).1).altitudeDifference a) :
    p ∈ s.altitudeDifference a ∨ (-2500 ≤ p.2 ∧ p.2 ≤ 2500) := by
  unfold processMsg velPhase diffFusion courseUpd speedUpd at hp
  repeat' split at hp
  all_goals try dsimp only at hp
  all_goals
    try simp only [cprPhase_altitudeDifference, csPhase_altitudeDifference,
      selPhase_altitudeDifference, phaseTsCollect_altitudeDifference,
      sqUpd_altitudeDifference, altUpd_altitudeDifference,
      phaseCommon_altitudeDifference] at hp
  all_goals try exact Or.inl hp
  all_goals repeat' split at hp
  all_goals try dsimp only at hp
  all_goals
    rcases upd_append_mem hp with h1 | h1
  all_goals try exact Or.inl h1
  all_goals right; rw [h1]
  all_goals exact get_altitude_difference_range (by assumption)

theorem processMsg_baroCorrection_mem {D : Decoder} {aa : String} {df : Nat}
    {ts : ℚ} {m : String} {s : AggState} {a : String} {p : ℚ × ℚ}
    (hp : p ∈ ((processMsg D aa df ts m s).1).baroCorrection a) :
    p ∈ s.baroCorrection a ∨ (800 ≤ p.2 ∧ p.2 ≤ 1100) := by
  unfold processMsg selPhase baroCorrUpd selUpd at hp
  repeat' split at hp
  all_goals try dsimp only at hp
  all_goals
    try simp only [cprPhase_baroCorrection, velPhase_baroCorrection,
      csPhase_baroCorrection, phaseTsCollect_baroCorrection,
      sqUpd_baroCorrection, altUpd_baroCorrection,
      phaseCommon_baroCorrection] at hp
  all_goals try exact Or.inl hp
  all_goals
    rcases upd_append_mem hp with h1 | h1
  all_goals try exact Or.inl h1
  all_goals right; rw [h1]
  all_goals exact get_baro_correction_range (by assumption)

theorem step_rangesOK (D : Decoder) (pf : String → Option ℚ)
    (target : Option String) (sn : AggState × Nat) (parts : List String)
    (h : rangesOK sn.1) : rangesOK (step D pf target sn parts).1 := by
  unfold step
  repeat' split
  all_goals try exact h
  intro a
  refine ⟨?_, ?_, ?_, ?_⟩
  · intro p hp
    rcases processMsg_altitude_mem hp with h1 | h1
    · exact (h a).1 p h1
    · exact h1
  · intro p hp
    rcases processMsg_selectedAltitude_mem hp with h1 | h1
    · exact (h a).2.1 p h1
    · exact h1
  · intro p hp
    rcases processMsg_altitudeDifference_mem hp with h1 | h1
    · exact (h a).2.2.1 p h1
    · exact h1
  · intro p hp
    rcases processMsg_baroCorrection_mem hp with h1 | h1
    · exact (h a).2.2.2 p h1
    · exact h1

theorem ingest_rangesOK (D : Decoder) (pf : String → Option ℚ)
    (target : Option String) (liness : List (List String)) :
    rangesOK (ingest D pf target liness).1 := by
  unfold ingest
  have main : ∀ sn, rangesOK sn.1 →
      rangesOK (liness.foldl (step D pf target) sn).1 := by
    induction liness with
    | nil => intro sn h; exact h
    | cons parts l ih =>
      intro sn h
      rw [List.foldl_cons]
      exact ih _ (step_rangesOK D pf target sn parts h)
  refine main (initState, 0) ?_
  intro a
  simp [initState]

/-! ### Supporting lemmas for the CPR pairing and altitude fusion claims -/

theorem altUpd_none {D : Decoder} {aa : String} {df : Nat} {ts : ℚ} {m : String}
    (s : AggState) (h : get_altitude_any_df D m df = none) :
    altUpd D aa df ts m s = s := by
  unfold altUpd; rw [h]

theorem sqUpd_none {D : Decoder} {aa : String} {df : Nat} {m : String}
    (s : AggState) (h : get_squawk D m df = none) :
    sqUpd D aa df s m = s := by
  unfold sqUpd; rw [h]

theorem speedUpd_gnssAltitude (D : Decoder) (aa : String) (ts : ℚ) (m : String)
    (s : AggState) : (speedUpd D aa ts m s).gnssAltitude = s.gnssAltitude := by
  unfold speedUpd; (repeat' split) <;> rfl

theorem speedUpd_altitudeDifference (D : Decoder) (aa : String) (ts : ℚ)
    (m : String) (s : AggState) :
    (speedUpd D aa ts m s).altitudeDifference = s.altitudeDifference := by
  unfold speedUpd; (repeat' split) <;> rfl

theorem speedUpd_baroBuffer (D : Decoder) (aa : String) (ts : ℚ) (m : String)
    (s : AggState) : (speedUpd D aa ts m s).baroBuffer = s.baroBuffer := by
  unfold speedUpd; (repeat' split) <;> rfl

theorem courseUpd_gnssAltitude (D : Decoder) (aa : String) (ts : ℚ) (m : String)
    (s : AggState) : (courseUpd D aa ts m s).gnssAltitude = s.gnssAltitude := by
  unfold courseUpd; (repeat' split) <;> rfl

theorem courseUpd_altitudeDifference (D : Decoder) (aa : String) (ts : ℚ)
    (m : String) (s : AggState) :
    (courseUpd D aa ts m s).altitudeDifference = s.altitudeDifference := by
  unfold courseUpd; (repeat' split) <;> rfl

theorem courseUpd_baroBuffer (D : Decoder) (aa : String) (ts : ℚ) (m : String)
    (s : AggState) : (courseUpd D aa ts m s).baroBuffer = s.baroBuffer := by
  unfold courseUpd; (repeat' split) <;> rfl

theorem diffFusion_eq (D : Decoder) (aa : String) (ts : ℚ) (m : String)
    (s : AggState) (d : ℚ) (hgad : get_altitude_difference D m = some d) :
    (diffFusion D aa ts m s).gnssAltitude aa =
      s.gnssAltitude aa ++
        (match s.baroBuffer aa with
         | some (tb, b) => if |ts - tb| < 5 then [(ts, b + d)] else []
         | none => []) ∧
    (diffFusion D aa ts m s).altitudeDifference aa =
      s.altitudeDifference aa ++ [(ts, d)] := by
  unfold diffFusion
  rw [hgad]
  cases hb : s.baroBuffer aa with
  | none => constructor <;> simp [upd]
  | some p =>
    obtain ⟨tb, b⟩ := p
    by_cases hw : |ts - tb| < 5
    · constructor <;> simp [hw, upd]
    · constructor <;> simp [hw, upd]

theorem velPhase_fusion (D : Decoder) (aa : String) (ts : ℚ) (m : String)
    (s : AggState) (d : ℚ) (hgad : get_altitude_difference D m = some d) :
    (velPhase D aa ts m s).gnssAltitude aa =
      s.gnssAltitude aa ++
        (match s.baroBuffer aa with
         | some (tb, b) => if |ts - tb| < 5 then [(ts, b + d)] else []
         | none => []) ∧
    (velPhase D aa ts m s).altitudeDifference aa =
      s.altitudeDifference aa ++ [(ts, d)] := by
  unfold velPhase
  obtain ⟨hg, ha⟩ := diffFusion_eq D aa ts m
    (courseUpd D aa ts m (speedUpd D aa ts m s)) d hgad
  rw [hg, ha]
  rw [courseUpd_gnssAltitude, speedUpd_gnssAltitude,
    courseUpd_altitudeDifference, speedUpd_altitudeDifference,
    courseUpd_baroBuffer, speedUpd_baroBuffer]
  exact ⟨rfl, rfl⟩

theorem intercalate_singleton (a : String) : String.intercalate " " [a] = a :=
  rfl

/-! ### The claims -/

/-- C1: when an airborne-position frame is stored and both CPR slots are then
populated with timestamps less than 10 seconds apart, the pairwise
position-resolution function is invoked exactly once (the second component of
`processMsg` counts its invocations), both slots are cleared to empty
afterwards whether or not resolution returned a position, and a position is
appended to the series exactly when resolution succeeds. -/
theorem cpr_pair_resolution (D : Decoder) (aa : String) (df : Nat) (ts : ℚ)
    (m : String) (s : AggState) (tc : Nat) (oe : Bool) (m0 m1 : String)
    (t0 t1 : ℚ)
    (hdf : df = 17 ∨ df = 18)
    (htc : D.typecode m = some tc) (htc9 : 9 ≤ tc) (htc18 : tc ≤ 18)
    (hoe : D.oeFlag m = some oe)
    (hstored : storeSlot oe (m, ts) ((s.cpr aa).getD (none, none)) =
      (some (m0, t0), some (m1, t1)))
    (hgap : |t0 - t1| < 10) :
    (processMsg D aa df ts m s).2 = 1 ∧
    ((processMsg D aa df ts m s).1).cpr aa = some (none, none) ∧
    ((processMsg D aa df ts m s).1).positions aa =
      s.positions aa ++
        (match D.position m0 m1 t0 t1 with
         | some q => [(ts, q.1, q.2)]
         | none => []) := by
  have hcpr3 : ∀ s' : AggState,
      (phaseTsCollect aa ts tc (sqUpd D aa df (altUpd D aa df ts m
        (phaseCommon aa df ts m s')) m)).cpr = s'.cpr := by
    intro s'
    simp [phaseTsCollect_cpr, sqUpd_cpr, altUpd_cpr, phaseCommon_cpr]
  have hpos3 : ∀ s' : AggState,
      (phaseTsCollect aa ts tc (sqUpd D aa df (altUpd D aa df ts m
        (phaseCommon aa df ts m s')) m)).positions = s'.positions := by
    intro s'
    simp [phaseTsCollect_positions, sqUpd_positions, altUpd_positions,
      phaseCommon_positions]
  unfold processMsg
  rw [if_pos hdf, htc]
  simp only [if_pos (And.intro htc9 htc18)]
  unfold cprPhase
  simp only [hoe]
  rw [hcpr3 s]
  rw [hstored]
  unfold cprAfterStore
  simp only [if_pos hgap]
  cases hp : D.position m0 m1 t0 t1 with
  | none =>
    refine ⟨by trivial, ?_, ?_⟩
    · simp [upd]
    · simp [hpos3 s]
  | some q =>
    refine ⟨by trivial, ?_, ?_⟩
    · simp [upd]
    · simp [hpos3 s, upd]

theorem cpr_pair_resolution_witness :
    (processMsg DcprTest "A" 17 4 "E2" cprTestState).2 = 1 ∧
    ((processMsg DcprTest "A" 17 4 "E2" cprTestState).1).cpr "A" =
      some (none, none) ∧
    ((processMsg DcprTest "A" 17 4 "E2" cprTestState).1).positions "A" =
      cprTestState.positions "A" ++ [(4, 10, 20)] := by
  have h := cpr_pair_resolution DcprTest "A" 17 4 "E2" cprTestState 9 false
    "E2" "E1" 4 3 (Or.inl rfl) rfl (by norm_num) (by norm_num) rfl
    (by decide) (by norm_num)
  exact ⟨h.1, h.2.1, h.2.2⟩

/-- C2: when both CPR slots are populated but the timestamps are at least 10
seconds apart, no resolution call is made, no position is appended, and the
buffer keeps exactly the stored pair: the new frame in its parity slot, the
other slot unchanged. -/
theorem cpr_pair_kept (D : Decoder) (aa : String) (df : Nat) (ts : ℚ)
    (m : String) (s : AggState) (tc : Nat) (oe : Bool) (m0 m1 : String)
    (t0 t1 : ℚ)
    (hdf : df = 17 ∨ df = 18)
    (htc : D.typecode m = some tc) (htc9 : 9 ≤ tc) (htc18 : tc ≤ 18)
    (hoe : D.oeFlag m = some oe)
    (hstored : storeSlot oe (m, ts) ((s.cpr aa).getD (none, none)) =
      (some (m0, t0), some (m1, t1)))
    (hgap : ¬ |t0 - t1| < 10) :
    (processMsg D aa df ts m s).2 = 0 ∧
    ((processMsg D aa df ts m s).1).cpr aa =
      some (some (m0, t0), some (m1, t1)) ∧
    ((processMsg D aa df ts m s).1).positions aa = s.positions aa := by
  have hcpr3 : ∀ s' : AggState,
      (phaseTsCollect aa ts tc (sqUpd D aa df (altUpd D aa df ts m
        (phaseCommon aa df ts m s')) m)).cpr = s'.cpr := by
    intro s'
    simp [phaseTsCollect_cpr, sqUpd_cpr, altUpd_cpr, phaseCommon_cpr]
  have hpos3 : ∀ s' : AggState,
      (phaseTsCollect aa ts tc (sqUpd D aa df (altUpd D aa df ts m
        (phaseCommon aa df ts m s')) m)).positions = s'.positions := by
    intro s'
    simp [phaseTsCollect_positions, sqUpd_positions, altUpd_positions,
      phaseCommon_positions]
  unfold processMsg
  rw [if_pos hdf, htc]
  simp only [if_pos (And.intro htc9 htc18)]
  unfold cprPhase
  simp only [hoe]
  rw [hcpr3 s]
  rw [hstored]
  unfold cprAfterStore
  simp only [if_neg hgap]
  refine ⟨by trivial, ?_, ?_⟩
  · simp [upd, hstored]
  · simp [hpos3 s]

theorem cpr_pair_kept_witness :
    (processMsg DcprTest "A" 17 20 "E2" cprTestState).2 = 0 ∧
    ((processMsg DcprTest "A" 17 20 "E2" cprTestState).1).cpr "A" =
      some (some ("E2", 20), some ("E1", 3)) ∧
    ((processMsg DcprTest "A" 17 20 "E2" cprTestState).1).positions "A" =
      cprTestState.positions "A" := by
  have h := cpr_pair_kept DcprTest "A" 17 20 "E2" cprTestState 9 false
    "E2" "E1" 20 3 (Or.inl rfl) rfl (by norm_num) (by norm_num) rfl
    (by decide) (by norm_num)
  exact ⟨h.1, h.2.1, h.2.2⟩

/-- C3: a velocity message with in-range altitude difference d at timestamp t
appends the difference sample (t, d), and appends a GNSS-derived altitude
sample exactly when the baro buffer holds (tb, b) with the time gap strictly
below 5 seconds; the appended sample is exactly (t, b + d), and an empty baro
buffer never yields a sample. -/
theorem altitude_fusion (D : Decoder) (aa : String) (df : Nat) (ts : ℚ)
    (m : String) (s : AggState) (d : ℚ)
    (hdf : df = 17 ∨ df = 18)
    (hDdf : D.df m = some df)
    (htc : D.typecode m = some 19)
    (hd : D.altitudeDiff m = some d)
    (hlo : -2500 ≤ d) (hhi : d ≤ 2500) :
    ((processMsg D aa df ts m s).1).gnssAltitude aa =
      s.gnssAltitude aa ++
        (match s.baroBuffer aa with
         | some (tb, b) => if |ts - tb| < 5 then [(ts, b + d)] else []
         | none => []) ∧
    ((processMsg D aa df ts m s).1).altitudeDifference aa =
      s.altitudeDifference aa ++ [(ts, d)] := by
  have hgad : get_altitude_difference D m = some d := by
    unfold get_altitude_difference
    rw [hDdf]
    simp only [if_pos hdf, htc]
    rw [hd]
    simp [hlo, hhi]
  have halt : get_altitude_any_df D m df = none := by
    unfold get_altitude_any_df
    rw [if_pos hdf, htc]
    simp
  have hsq : get_squawk D m df = none := by
    unfold get_squawk
    rcases hdf with h | h <;> subst h <;> rfl
  unfold processMsg
  rw [if_pos hdf, htc]
  simp only [if_neg (show ¬((9:ℕ) ≤ 19 ∧ (19:ℕ) ≤ 18) by omega),
    eq_self_iff_true, if_true]
  rw [altUpd_none _ halt, sqUpd_none _ hsq]
  obtain ⟨hg, ha⟩ := velPhase_fusion D aa ts m
    (phaseTsCollect aa ts 19 (phaseCommon aa df ts m s)) d hgad
  rw [hg, ha]
  rw [phaseTsCollect_gnssAltitude, phaseCommon_gnssAltitude,
    phaseTsCollect_altitudeDifference, phaseCommon_altitudeDifference,
    phaseTsCollect_baroBuffer, phaseCommon_baroBuffer]
  exact ⟨rfl, rfl⟩

theorem altitude_fusion_witness :
    ((processMsg DfusTest "A" 17 104 "V1" fusTestState).1).gnssAltitude "A" =
      fusTestState.gnssAltitude "A" ++ [(104, 35050)] ∧
    ((processMsg DfusTest "A" 17 106 "V1" fusTestState).1).gnssAltitude "A" =
      fusTestState.gnssAltitude "A" := by
  have h1 := altitude_fusion DfusTest "A" 17 104 "V1" fusTestState 50
    (Or.inl rfl) rfl rfl rfl (by norm_num) (by norm_num)
  have h2 := altitude_fusion DfusTest "A" 17 106 "V1" fusTestState 50
    (Or.inl rfl) rfl rfl rfl (by norm_num) (by norm_num)
  constructor
  · rw [h1.1]; norm_num [fusTestState, initState, upd]
  · rw [h2.1]; norm_num [fusTestState, initState, upd]

/-- C4 counterexample: the code overwrites a previously recorded callsign.
Feeding two identification messages whose sanitized callsigns are AAA then
BBB leaves BBB recorded, while the claim requires the earliest non-empty
sanitized callsign AAA to persist. -/
theorem callsign_overwritten :
    ((ingest DcsTest pfNum none [["1", "AA"], ["2", "BB"]]).1).callsigns "A" =
      some "BBB" ∧
    ("BBB" : String) ≠ "AAA" := by
  constructor
  · decide
  · decide

/-- C4 amended: the recorded callsign of an aircraft equals the sanitized
callsign of the latest identification message that produced a non-empty one
(the last element of the observed-callsign list), not the earliest. -/
theorem callsign_latest_wins (D : Decoder) (pf : String → Option ℚ)
    (target : Option String) (aa : String) (liness : List (List String)) :
    ((ingest D pf target liness).1).callsigns aa =
      (obsCs D pf target aa liness).getLast? := by
  unfold ingest
  rw [foldl_callsigns]
  cases (obsCs D pf target aa liness).getLast? <;> rfl

/-- C5 counterexample: the first-seen and last-seen watermarks are arrival
order, not minimum and maximum.  Two identified messages with timestamps 5
then 3 leave the watermark (5, 3), while minimum and maximum would be
(3, 5). -/
theorem watermark_not_minmax :
    ((ingest DwmTest pfNum none [["5", "AA"], ["3", "BB"]]).1).times "A" =
      some (5, 3) ∧
    ((5:ℚ), (3:ℚ)) ≠ ((3:ℚ), (5:ℚ)) := by
  constructor
  · decide
  · decide

/-- C5 amended: after ingestion the first-seen timestamp equals the timestamp
of the earliest-arriving successfully-identified message of the aircraft and
the last-seen timestamp that of the latest-arriving one, the watermark being
updated on every identified message regardless of further decode success;
the two coincide with minimum and maximum only when the log timestamps are
non-decreasing in arrival order. -/
theorem watermark_first_last (D : Decoder) (pf : String → Option ℚ)
    (target : Option String) (aa : String) (liness : List (List String)) :
    ((ingest D pf target liness).1).times aa =
      match obsTs D pf target aa liness with
      | [] => none
      | t :: r => some (t, r.getLastD t) := by
  unfold ingest
  rw [foldl_times]
  cases h : obsTs D pf target aa liness with
  | nil => rfl
  | cons tt r =>
    show watermark none (tt :: r) = some (tt, r.getLastD tt)
    unfold watermark
    rw [List.foldl_cons]
    exact watermark_some r tt tt

/-- C6: given that the external decoder only emits downlink-format codes up
to 24 (pyModeS caps its df result at 24), an aircraft of the aggregated set
is retained by the Capability Filter exactly when its label set contains a
label for extended-squitter format 17 or 18; an aircraft whose label set is
exactly the two legacy labels DF4(S), DF5(S) is excluded, one whose label set
contains DF17(L) is retained, and the reported counts satisfy
retained + filtered out = total discovered. -/
theorem capability_filter (D : Decoder) (pf : String → Option ℚ)
    (target : Option String) (liness : List (List String))
    (hD : ∀ m d, D.df m = some d → d ≤ 24) :
    (∀ aa, aa ∈ capabilityRetained (ingest D pf target liness).1 ↔
        aa ∈ ((ingest D pf target liness).1).icaoList ∧
          ∃ lbl ∈ ((ingest D pf target liness).1).dfs aa,
            (∃ m, lbl = get_format_label m 17) ∨
            (∃ m, lbl = get_format_label m 18)) ∧
    (∀ aa, ((ingest D pf target liness).1).dfs aa = ["DF4(S)", "DF5(S)"] →
        aa ∉ capabilityRetained (ingest D pf target liness).1) ∧
    (∀ aa, aa ∈ ((ingest D pf target liness).1).icaoList →
        "DF17(L)" ∈ ((ingest D pf target liness).1).dfs aa →
        aa ∈ capabilityRetained (ingest D pf target liness).1) ∧
    ((capabilityRetained (ingest D pf target liness).1).length +
        filteredCount (ingest D pf target liness).1 =
      ((ingest D pf target liness).1).icaoList.length) := by
  have hlab := ingest_labelsOK D pf target liness
  refine ⟨?_, ?_, ?_, ?_⟩
  · intro aa
    rw [capabilityRetained_mem]
    constructor
    · rintro ⟨hin, lbl, hl, hadsb⟩
      refine ⟨hin, lbl, hl, ?_⟩
      obtain ⟨m, d, hdm, rfl⟩ := hlab aa lbl hl
      have hd24 := hD m d hdm
      rcases (hasAdsb_label_iff m d hd24).1 hadsb with rfl | rfl
      · exact Or.inl ⟨m, rfl⟩
      · exact Or.inr ⟨m, rfl⟩
    · rintro ⟨hin, lbl, hl, hcase⟩
      refine ⟨hin, lbl, hl, ?_⟩
      rcases hcase with ⟨m, rfl⟩ | ⟨m, rfl⟩
      · exact (hasAdsb_label_iff m 17 (by norm_num)).2 (Or.inl rfl)
      · exact (hasAdsb_label_iff m 18 (by norm_num)).2 (Or.inr rfl)
  · intro aa hdfs hmem
    rw [capabilityRetained_mem] at hmem
    obtain ⟨hin, lbl, hl, hadsb⟩ := hmem
    rw [hdfs] at hl
    simp at hl
    rcases hl with rfl | rfl
    · exact absurd hadsb (by decide)
    · exact absurd hadsb (by decide)
  · intro aa hin hl
    exact (capabilityRetained_mem _ aa).2 ⟨hin, "DF17(L)", hl, by decide⟩
  · unfold filteredCount capabilityRetained
    have hle := List.length_filter_le
      (fun aa => (((ingest D pf target liness).1).dfs aa).any hasAdsbLabel)
      ((ingest D pf target liness).1).icaoList
    omega

theorem capability_filter_witness :
    "A" ∈ capabilityRetained (ingest DaltTest pfNum none [["1", "AA"]]).1 := by
  have h := capability_filter DaltTest pfNum none [["1", "AA"]]
    (fun m d hmd => by simp [DaltTest] at hmd; omega)
  exact h.2.2.1 "A" (by decide) (by decide)

/-- C7 counterexample: squawk is not range-checked.  The ingestion stores
whatever non-empty identity string the decoder returns, here the five-digit
99999 and the non-numeric XYZ, both outside any plausible transponder-code
range. -/
theorem squawk_not_range_checked :
    ((ingest DsqTest pfNum none [["1", "AA"], ["2", "BB"]]).1).squawks "A" =
      some "99999" ∧
    ((ingest DsqTest pfNum none [["1", "AA"], ["2", "BB"]]).1).squawks "B" =
      some "XYZ" := by
  constructor
  · decide
  · decide

/-- C7 amended: every value stored into the barometric-altitude,
selected-altitude, altitude-difference and baro-pressure-setting series has
passed its fixed plausibility range check (-2000..60000, -2000..50000,
-2500..2500 and 800..1100 respectively), out-of-range values being discarded
without being stored; all operations are total so nothing raises.  Squawk,
however, is stored subject only to a non-emptiness check with no numeric
range check. -/
theorem plausibility_ranges_hold (D : Decoder) (pf : String → Option ℚ)
    (target : Option String) (liness : List (List String)) :
    rangesOK (ingest D pf target liness).1 :=
  ingest_rangesOK D pf target liness

theorem plausibility_ranges_hold_witness :
    -2000 ≤ ((500:ℚ)) ∧ ((500:ℚ)) ≤ 60000 := by
  have h := plausibility_ranges_hold DaltTest pfNum none [["1", "AA"]]
  have hm : ((1:ℚ), (500:ℚ)) ∈
      ((ingest DaltTest pfNum none [["1", "AA"]]).1).altitude "A" := by decide
  simpa using (h "A").1 (1, 500) hm

/-- C8: the Timing Analyzer applied to the timestamps 0.0, 0.5, 1.0, 1.6 with
target 500 ms and tolerance 100 ms.  The timestamps are the IEEE-754 float64
values the framer stores, so the last one is fl16, slightly above 8/5; the
consecutive intervals are 500 ms, 500 ms and a third within a nanosecond of
600 ms but strictly above it, and the band split around 500 plus-minus 100
classifies them as 2 in-range, 0 too-frequent, 1 too-infrequent. -/
theorem timing_analyzer_example :
    intervalsMs [0, 1/2, 1, fl16] = [500, 500, 1000 * (fl16 - 1)] ∧
    (600 < 1000 * (fl16 - 1) ∧ 1000 * (fl16 - 1) < 600 + 1/1000000) ∧
    bandCounts [0, 1/2, 1, fl16] 500 100 = (2, 0, 1) := by
  refine ⟨?_, ⟨?_, ?_⟩, ?_⟩
  · norm_num [intervalsMs, sortQ, insertSorted, consecutiveDiffs, fl16]
  · norm_num [fl16]
  · norm_num [fl16]
  · norm_num [bandCounts, intervalsMs, sortQ, insertSorted, consecutiveDiffs,
      fl16]

/-- C9: the per-message ingestion of the two repository versions is
equivalent: on every oracle, float parser, target filter and log, the ver1
loop and the ver2 loop produce identical aggregated state (and resolution
counts). -/
theorem versions_equivalent (D : Decoder) (pf : String → Option ℚ)
    (target : Option String) (liness : List (List String)) :
    Ver1.ingest D pf target liness = ingest D pf target liness :=
  rfl

/-- C10: a two-token line whose second token upper-cases to DF is accepted
with the marker consumed as hex, producing the one-byte payload 0xDF, while
a second token upper-casing to UF is discarded because U is not a hex digit;
with three tokens the marker is skipped and the remaining tokens form the
payload. -/
theorem df_uf_marker (pf : String → Option ℚ) (t mk : String) (q : ℚ)
    (h : pf t = some q) :
    (strUpper mk = "DF" →
      parse_ads_b_line pf [t, mk] = some ⟨q, [0xDF], "DF"⟩) ∧
    (strUpper mk = "UF" →
      parse_ads_b_line pf [t, mk] = none) ∧
    (strUpper mk = "DF" →
      parse_ads_b_line pf [t, mk, "8D"] = some ⟨q, [0x8D], "8D"⟩) := by
  refine ⟨?_, ?_, ?_⟩ <;> intro hmk
  · have hdata : mk.data.map Char.toUpper = ['D', 'F'] := by
      have h2 := congrArg String.data hmk
      simpa [strUpper] using h2
    unfold parse_ads_b_line
    rw [if_neg (by simp : ¬([t, mk].length < 2))]
    simp only [List.headD_cons, h]
    rw [if_neg (by simp : ¬((3:ℕ) ≤ [t, mk].length ∧
      (strUpper ([t, mk].getD 1 "") = "DF" ∨
       strUpper ([t, mk].getD 1 "") = "UF")))]
    simp only [List.drop_succ_cons, List.drop_zero, joinSpaced, hdata]
    rfl
  · have hdata : mk.data.map Char.toUpper = ['U', 'F'] := by
      have h2 := congrArg String.data hmk
      simpa [strUpper] using h2
    unfold parse_ads_b_line
    rw [if_neg (by simp : ¬([t, mk].length < 2))]
    simp only [List.headD_cons, h]
    rw [if_neg (by simp : ¬((3:ℕ) ≤ [t, mk].length ∧
      (strUpper ([t, mk].getD 1 "") = "DF" ∨
       strUpper ([t, mk].getD 1 "") = "UF")))]
    simp only [List.drop_succ_cons, List.drop_zero, joinSpaced, hdata]
    rfl
  · unfold parse_ads_b_line
    rw [if_neg (by simp : ¬([t, mk, "8D"].length < 2))]
    simp only [List.headD_cons, h]
    rw [if_pos (⟨by simp, Or.inl (by simpa using hmk)⟩ :
      ((3:ℕ) ≤ [t, mk, "8D"].length ∧
        (strUpper ([t, mk, "8D"].getD 1 "") = "DF" ∨
         strUpper ([t, mk, "8D"].getD 1 "") = "UF")))]
    simp only [List.drop_succ_cons, List.drop_zero, joinSpaced]
    rfl

theorem df_uf_marker_witness :
    parse_ads_b_line pfNum ["1", "dF"] = some ⟨1, [0xDF], "DF"⟩ ∧
    parse_ads_b_line pfNum ["1", "uf"] = none ∧
    parse_ads_b_line pfNum ["1", "Df", "8D"] = some ⟨1, [0x8D], "8D"⟩ := by
  refine ⟨?_, ?_, ?_⟩
  · exact (df_uf_marker pfNum "1" "dF" 1 rfl).1 (by decide)
  · exact (df_uf_marker pfNum "1" "uf" 1 rfl).2.1 (by decide)
  · exact (df_uf_marker pfNum "1" "Df" 1 rfl).2.2 (by decide)

end Nav
